import Mathlib

/-! MIDI codec and device layer (edemond/midi).

A shallow embedding of `midi.go`, `oss.go` and `alsa.go`.

* Go `byte` values are natural numbers below 256; byte arithmetic that can
  wrap is written with an explicit `% 256`.
* A Go `error` is `Option String`: `none` is `nil`, `some s` an error whose
  text is `s`.
* The operating-system handles (`*os.File`, `*C.snd_rawmidi_t`) are values of
  an arbitrary state type; the native calls made on them (`Read`, `Write`,
  `snd_rawmidi_read`, `snd_rawmidi_write`) are parameters of the embedded
  methods, so every statement holds for every behaviour of the transport.
* A method with a pointer receiver returns the updated receiver; `Receive`
  also returns the updated `Message`.
-/

namespace Midi

/-! ## Data model (midi.go) -/

/-- Message of midi.go: one MIDI event. The four byte fields hold values
below 256, `SysEx` is a byte slice. -/
structure Message where
  Command : Nat
  Channel : Nat
  Data1 : Nat
  Data2 : Nat
  SysEx : List Nat
deriving DecidableEq, Repr

/-! ## Transport calls -/

/-- What one native read call did: the bytes it stored at the front of the
caller's buffer, and the error it reported (`none` for no error). The byte
count the call returns is discarded by every caller in this repository. -/
structure ReadOutcome where
  bytes : List Nat
  err : Option String
deriving DecidableEq, Repr

/-- What one native write call reported: the count of bytes written and the
error. Every caller in this repository discards both. -/
structure WriteOutcome where
  n : Nat
  err : Option String
deriving DecidableEq, Repr

/-- Contents of a Go array `var buf [n]byte` (all zero when declared) after a
read stored `bytes` at its front: at most `n` bytes fit, each cell holds a
byte, and the cells the read did not reach keep their zero. -/
def fillBuf (n : Nat) (bytes : List Nat) : List Nat :=
  (bytes.take n).map (fun b => b % 256) ++ List.replicate (n - (bytes.take n).length) 0

/-- Indexing `buf[i]` of a byte array held as a list. -/
def byteAt (buf : List Nat) (i : Nat) : Nat := buf.getD i 0

/-- What a `Receive` call leaves behind: the returned error, the device and
the `Message` the caller passed by pointer. -/
structure Received (δ : Type) where
  err : Option String
  dev : δ
  msg : Message

/-! ## OSS backend (oss.go) -/

/-- ossDevice of oss.go. `input` and `output` are `*os.File`: `none` is the
nil pointer, `some f` an open file in state `f`. -/
structure ossDevice (σ ω : Type) where
  filename : String
  input : Option σ
  output : Option ω

namespace ossDevice

variable {σ ω : Type}

/-- ossDevice.Receive (oss.go 71-120). `Read f n` is `f.Read(buf[:])` on a
buffer of `n` bytes. -/
def Receive (Read : σ → Nat → ReadOutcome × σ) (oss : ossDevice σ ω) (msg : Message) :
    Received (ossDevice σ ω) :=
  match oss.input with
  | none => ⟨some "Device not open for input.", oss, msg⟩
  | some f =>
    let r := Read f 1
    let cmdBuf := fillBuf 1 r.1.bytes
    let oss1 : ossDevice σ ω := { oss with input := some r.2 }
    match r.1.err with
    | some e => ⟨some e, oss1, msg⟩
    | none =>
      let command := (byteAt cmdBuf 0 &&& 0xF0) >>> 4
      match command with
      | 0x8 | 0x9 | 0xA | 0xB | 0xE =>
        let r2 := Read r.2 2
        let dataBuf := fillBuf 2 r2.1.bytes
        let oss2 : ossDevice σ ω := { oss with input := some r2.2 }
        match r2.1.err with
        | some e => ⟨some e, oss2, msg⟩
        | none =>
          ⟨none, oss2, { msg with
            Command := command
            Channel := byteAt cmdBuf 0 &&& 0x0F
            Data1 := byteAt dataBuf 0
            Data2 := byteAt dataBuf 1 }⟩
      | 0xC | 0xD =>
        let r2 := Read r.2 1
        let dataBuf := fillBuf 1 r2.1.bytes
        let oss2 : ossDevice σ ω := { oss with input := some r2.2 }
        match r2.1.err with
        | some e => ⟨some e, oss2, msg⟩
        | none =>
          ⟨none, oss2, { msg with
            Command := command
            Channel := byteAt cmdBuf 0 &&& 0x0F
            Data1 := byteAt dataBuf 0 }⟩
      | 0xF => ⟨some "no SysEx yet sorry", oss1, msg⟩
      | _ => ⟨some ("Unknown MIDI command: " ++ toString command), oss1, msg⟩

/-- ossDevice.NoteOn (oss.go 141-153). `Write f bs` is `f.Write(bs)`; its
result is discarded. `channel - 1` is byte subtraction, wrapping at 0. -/
def NoteOn (Write : ω → List Nat → WriteOutcome × ω) (oss : ossDevice σ ω)
    (channel note velocity : Nat) : ossDevice σ ω :=
  match oss.output with
  | none => oss
  | some f =>
    let msg := [0x90 ||| ((channel + 256 - 1) % 256), note, velocity]
    { oss with output := some (Write f msg).2 }

/-- ossDevice.NoteOff (oss.go 155-167). -/
def NoteOff (Write : ω → List Nat → WriteOutcome × ω) (oss : ossDevice σ ω)
    (channel note velocity : Nat) : ossDevice σ ω :=
  match oss.output with
  | none => oss
  | some f =>
    let msg := [0x80 ||| ((channel + 256 - 1) % 256), note, velocity]
    { oss with output := some (Write f msg).2 }

/-- ossDevice.KeyAftertouch (oss.go 169-181). -/
def KeyAftertouch (Write : ω → List Nat → WriteOutcome × ω) (oss : ossDevice σ ω)
    (channel key touch : Nat) : ossDevice σ ω :=
  match oss.output with
  | none => oss
  | some f =>
    let msg := [0xA0 ||| ((channel + 256 - 1) % 256), key, touch]
    { oss with output := some (Write f msg).2 }

/-- ossDevice.ControllerChange (oss.go 183-184): the body is empty. -/
def ControllerChange (device : ossDevice σ ω)
    (_channel _controller _value : Nat) : ossDevice σ ω :=
  device

/-- ossDevice.ProgramChange (oss.go 186-187): the body is empty. -/
def ProgramChange (device : ossDevice σ ω)
    (_channel _program : Nat) : ossDevice σ ω :=
  device

/-- ossDevice.ChannelAftertouch (oss.go 189-190): the body is empty. -/
def ChannelAftertouch (device : ossDevice σ ω)
    (_channel _touch : Nat) : ossDevice σ ω :=
  device

/-- ossDevice.PitchBend (oss.go 192-193): the body is empty; `amount` is a
`uint16`. -/
def PitchBend (device : ossDevice σ ω)
    (_channel _amount : Nat) : ossDevice σ ω :=
  device

/-- ossDevice.ChannelMode (oss.go 195-196): the body is empty. -/
def ChannelMode (device : ossDevice σ ω)
    (_channel _mode : Nat) : ossDevice σ ω :=
  device

end ossDevice

/-! ## ALSA backend (alsa.go) -/

/-- alsaDevice of alsa.go. `inputDevice` and `outputDevice` are
`*C.snd_rawmidi_t`: `none` is the nil pointer, `some h` a handle in state
`h`. -/
structure alsaDevice (σ ω : Type) where
  inputDevice : Option σ
  outputDevice : Option ω
  deviceName : String
  name : String
  isInput : Bool
  isOutput : Bool
  inputOpen : Bool
  outputOpen : Bool

namespace alsaDevice

variable {σ ω : Type}

/-- alsaDevice.Receive (alsa.go 245-295). `snd_rawmidi_read h n` is the C call
on the pointer `h` with a buffer of `n` bytes; the error of its outcome is the
second value of the cgo call (errno). The pointer is passed as it is, nil or
not. -/
def Receive (snd_rawmidi_read : Option σ → Nat → ReadOutcome × Option σ)
    (alsa : alsaDevice σ ω) (msg : Message) : Received (alsaDevice σ ω) :=
  if !alsa.inputOpen then
    ⟨some "cannot read from a non-input device", alsa, msg⟩
  else
    let r := snd_rawmidi_read alsa.inputDevice 1
    let cmdBuf := fillBuf 1 r.1.bytes
    let alsa1 : alsaDevice σ ω := { alsa with inputDevice := r.2 }
    match r.1.err with
    | some e => ⟨some e, alsa1, msg⟩
    | none =>
      let command := (byteAt cmdBuf 0 &&& 0xF0) >>> 4
      match command with
      | 0x8 | 0x9 | 0xA | 0xB | 0xE =>
        let r2 := snd_rawmidi_read r.2 2
        let dataBuf := fillBuf 2 r2.1.bytes
        let alsa2 : alsaDevice σ ω := { alsa with inputDevice := r2.2 }
        match r2.1.err with
        | some e => ⟨some e, alsa2, msg⟩
        | none =>
          ⟨none, alsa2, { msg with
            Command := command
            Channel := byteAt cmdBuf 0 &&& 0x0F
            Data1 := byteAt dataBuf 0
            Data2 := byteAt dataBuf 1 }⟩
      | 0xC | 0xD =>
        let r2 := snd_rawmidi_read r.2 1
        let dataBuf := fillBuf 1 r2.1.bytes
        let alsa2 : alsaDevice σ ω := { alsa with inputDevice := r2.2 }
        match r2.1.err with
        | some e => ⟨some e, alsa2, msg⟩
        | none =>
          ⟨none, alsa2, { msg with
            Command := command
            Channel := byteAt cmdBuf 0 &&& 0x0F
            Data1 := byteAt dataBuf 0 }⟩
      | 0xF => ⟨some "no SysEx yet sorry", alsa1, msg⟩
      | _ => ⟨some ("Unknown MIDI command: " ++ toString command), alsa1, msg⟩

/-- alsaDevice.NoteOn (alsa.go 297-305). `snd_rawmidi_write h bs` is the C
call on the pointer `h`; its result is discarded. -/
def NoteOn (snd_rawmidi_write : Option ω → List Nat → WriteOutcome × Option ω)
    (alsa : alsaDevice σ ω) (channel note velocity : Nat) : alsaDevice σ ω :=
  if alsa.outputOpen then
    let msg := [0x90 ||| ((channel + 256 - 1) % 256), note, velocity]
    { alsa with outputDevice := (snd_rawmidi_write alsa.outputDevice msg).2 }
  else alsa

/-- alsaDevice.NoteOff (alsa.go 307-315). -/
def NoteOff (snd_rawmidi_write : Option ω → List Nat → WriteOutcome × Option ω)
    (alsa : alsaDevice σ ω) (channel note velocity : Nat) : alsaDevice σ ω :=
  if alsa.outputOpen then
    let msg := [0x80 ||| ((channel + 256 - 1) % 256), note, velocity]
    { alsa with outputDevice := (snd_rawmidi_write alsa.outputDevice msg).2 }
  else alsa

/-- alsaDevice.KeyAftertouch (alsa.go 317-325). The conversions to `C.uchar`
keep the byte values. -/
def KeyAftertouch (snd_rawmidi_write : Option ω → List Nat → WriteOutcome × Option ω)
    (alsa : alsaDevice σ ω) (channel key touch : Nat) : alsaDevice σ ω :=
  if alsa.outputOpen then
    let msg := [0xA0 ||| ((channel + 256 - 1) % 256), key, touch]
    { alsa with outputDevice := (snd_rawmidi_write alsa.outputDevice msg).2 }
  else alsa

/-- alsaDevice.ControllerChange (alsa.go 327-335). -/
def ControllerChange (snd_rawmidi_write : Option ω → List Nat → WriteOutcome × Option ω)
    (alsa : alsaDevice σ ω) (channel controller value : Nat) : alsaDevice σ ω :=
  if alsa.outputOpen then
    let msg := [0xB0 ||| ((channel + 256 - 1) % 256), controller, value]
    { alsa with outputDevice := (snd_rawmidi_write alsa.outputDevice msg).2 }
  else alsa

/-- alsaDevice.ProgramChange (alsa.go 337-338): the body is empty. -/
def ProgramChange (device : alsaDevice σ ω) (_channel _program : Nat) : alsaDevice σ ω :=
  device

/-- alsaDevice.ChannelAftertouch (alsa.go 340-341): the body is empty. -/
def ChannelAftertouch (device : alsaDevice σ ω) (_channel _touch : Nat) : alsaDevice σ ω :=
  device

/-- alsaDevice.PitchBend (alsa.go 343-344): the body is empty; `amount` is a
`uint16`. -/
def PitchBend (device : alsaDevice σ ω) (_channel _amount : Nat) : alsaDevice σ ω :=
  device

/-- alsaDevice.ChannelMode (alsa.go 346-347): the body is empty. -/
def ChannelMode (device : alsaDevice σ ω) (_channel _mode : Nat) : alsaDevice σ ω :=
  device

end alsaDevice

/-! ## Device lifecycle (oss.go, alsa.go) and the registry (midi.go) -/

/-- What a call that returns only an `error` leaves behind: the error and the
receiver after the call. -/
structure Returned (δ : Type) where
  err : Option String
  dev : δ

namespace ossDevice

variable {σ ω : Type}

/-- ossDevice.Close (oss.go 122-139). `CloseIn f` is `oss.input.Close()` and
`CloseOut f` is `oss.output.Close()`: the error reported and the state the
file object is left in. The first block is the input side: a failed close
returns at once (`.error`), with the file pointer still set; otherwise the
method goes on to the output side. -/
def Close (CloseIn : σ → Option String × σ) (CloseOut : ω → Option String × ω)
    (oss : ossDevice σ ω) : Returned (ossDevice σ ω) :=
  let inputSide : Except (Returned (ossDevice σ ω)) (ossDevice σ ω) :=
    match oss.input with
    | some f =>
      match (CloseIn f).1 with
      | some err =>
        .error ⟨some ("Error closing OSS MIDI device: " ++ err),
          { oss with input := some (CloseIn f).2 }⟩
      | none => .ok { oss with input := none }
    | none => .ok oss
  match inputSide with
  | .error ret => ret
  | .ok oss1 =>
    match oss1.output with
    | some g =>
      match (CloseOut g).1 with
      | some err =>
        ⟨some ("Error closing OSS MIDI device: " ++ err),
          { oss1 with output := some (CloseOut g).2 }⟩
      | none => ⟨none, { oss1 with output := none }⟩
    | none => ⟨none, oss1⟩

end ossDevice

namespace alsaDevice

variable {σ ω : Type}

/-- alsaDevice.Name (alsa.go 29-31): the friendly name and the ALSA device
name in parentheses. -/
def Name (alsa : alsaDevice σ ω) : String :=
  alsa.name ++ " (" ++ alsa.deviceName ++ ")"

/-- alsaDevice.IsInput (alsa.go 33-35). -/
def IsInput (alsa : alsaDevice σ ω) : Bool := alsa.isInput

/-- alsaDevice.IsOutput (alsa.go 37-39). -/
def IsOutput (alsa : alsaDevice σ ω) : Bool := alsa.isOutput

/-- alsaDevice.OpenInput (alsa.go 41-54). `snd_rawmidi_open h name` is the C
call `snd_rawmidi_open(&alsa.inputDevice, nil, name, SND_RAWMIDI_NONBLOCK)`:
`h` is the pointer the field holds before the call, the result is the C
return code and the pointer the field holds after it. -/
def OpenInput (snd_rawmidi_open : Option σ → String → Int × Option σ)
    (alsa : alsaDevice σ ω) : Returned (alsaDevice σ ω) :=
  if !alsa.IsInput then
    ⟨some ("ALSA device " ++ alsa.Name ++
      " is not an input device and cannot be opened for input."), alsa⟩
  else
    let r := snd_rawmidi_open alsa.inputDevice alsa.deviceName
    if r.1 ≠ 0 then
      ⟨some ("Error opening ALSA MIDI device " ++ alsa.Name ++ " for input."),
        { alsa with inputDevice := r.2 }⟩
    else
      ⟨none, { alsa with inputDevice := r.2, inputOpen := true }⟩

/-- alsaDevice.OpenOutput (alsa.go 56-69). `snd_rawmidi_open h name` is the C
call `snd_rawmidi_open(nil, &alsa.outputDevice, name, SND_RAWMIDI_NONBLOCK)`. -/
def OpenOutput (snd_rawmidi_open : Option ω → String → Int × Option ω)
    (alsa : alsaDevice σ ω) : Returned (alsaDevice σ ω) :=
  if !alsa.IsOutput then
    ⟨some ("ALSA device " ++ alsa.Name ++
      " is not an output device and cannot be opened for output."), alsa⟩
  else
    let r := snd_rawmidi_open alsa.outputDevice alsa.deviceName
    if r.1 ≠ 0 then
      ⟨some ("Error opening ALSA MIDI device " ++ alsa.Name ++ " for output."),
        { alsa with outputDevice := r.2 }⟩
    else
      ⟨none, { alsa with outputDevice := r.2, outputOpen := true }⟩

/-- alsaDevice.Close (alsa.go 71-90). `closeIn h` and `closeOut h` are the C
call `snd_rawmidi_close(h)` on the input and on the output pointer: the C
return code and the state the handle is left in. The first block is the input
side: a failed close returns at once (`.error`), with pointer and open flag
still set; otherwise the method goes on to the output side. -/
def Close (closeIn : Option σ → Int × Option σ) (closeOut : Option ω → Int × Option ω)
    (alsa : alsaDevice σ ω) : Returned (alsaDevice σ ω) :=
  let inputSide : Except (Returned (alsaDevice σ ω)) (alsaDevice σ ω) :=
    if alsa.inputOpen then
      let r := closeIn alsa.inputDevice
      if r.1 ≠ 0 then
        .error ⟨some ("Error closing ALSA MIDI input device " ++ alsa.Name ++ "."),
          { alsa with inputDevice := r.2 }⟩
      else .ok { alsa with inputDevice := none, inputOpen := false }
    else .ok alsa
  match inputSide with
  | .error ret => ret
  | .ok alsa1 =>
    if alsa1.outputOpen then
      let q := closeOut alsa1.outputDevice
      if q.1 ≠ 0 then
        ⟨some ("Error closing ALSA MIDI output device " ++ alsa1.Name ++ "."),
          { alsa1 with outputDevice := q.2 }⟩
      else ⟨none, { alsa1 with outputDevice := none, outputOpen := false }⟩
    else ⟨none, alsa1⟩

end alsaDevice

/-- GetDevices (midi.go 50-61). The two discovery functions talk to the
operating system, so they are parameters: each takes the state of the host and
returns the device slice (`none` is a nil slice), the error, and the state of
the host after the call. -/
def GetDevices {δ W : Type}
    (ListAllOssDevices ListAllAlsaDevices : W → (Option (List δ) × Option String) × W)
    (driver : String) (w : W) : (Option (List δ) × Option String) × W :=
  match driver with
  | "oss" => ListAllOssDevices w
  | "alsa" => ListAllAlsaDevices w
  | _ => ((none, some ("Unrecognized MIDI driver \x27" ++ driver ++ "\x27.")), w)

/-! ## The decode dispatch as the specification words it -/

/-- Follows the specification's words (decode, step 3), not the code: the
number of data bytes to read after a status byte with the given command.
Commands {0x8,0x9,0xA,0xB,0xE} read exactly 2 more bytes, {0xC,0xD} read
exactly 1 more byte; for 0xF and for any other value decoding fails and no
data byte is read (`none`). -/
def specDataLength (command : Nat) : Option Nat :=
  if command ∈ [0x8, 0x9, 0xA, 0xB, 0xE] then some 2
  else if command ∈ [0xC, 0xD] then some 1
  else none

/-! ## A byte pipe as transport

The statements below hold for every transport. To run the code on concrete
bytes, a transport is needed: a queue of bytes, read in the way the
repository assumes ("exactly the requested bytes are delivered per call"),
and a log of the read requests made so far. -/

/-- State of a byte pipe: the bytes waiting to be read, in order, and the
sizes of the read calls made so far. A write appends to `pending`. -/
structure Pipe where
  pending : List Nat
  reads : List Nat
deriving DecidableEq, Repr

/-- A read of `n` bytes from a pipe: it delivers the next `n` waiting bytes
(fewer when fewer wait) and, as `os.File.Read` does, reports end of file when
asked for bytes and none is waiting. -/
def Pipe.read (p : Pipe) (n : Nat) : ReadOutcome × Pipe :=
  if p.pending = [] ∧ 0 < n then
    (⟨[], some "EOF"⟩, { p with reads := p.reads ++ [n] })
  else
    (⟨p.pending.take n, none⟩, ⟨p.pending.drop n, p.reads ++ [n]⟩)

/-- A write to a pipe: all bytes are appended, no error. -/
def Pipe.write (p : Pipe) (bs : List Nat) : WriteOutcome × Pipe :=
  (⟨bs.length, none⟩, { p with pending := p.pending ++ bs })

/-- The C read call on a pipe handle. On a nil pointer the call is given an
`EINVAL` outcome; no device below is open on a nil pointer. -/
def Pipe.rawRead : Option Pipe → Nat → ReadOutcome × Option Pipe
  | none, _ => (⟨[], some "EINVAL"⟩, none)
  | some p, n => ((p.read n).1, some (p.read n).2)

/-- The C write call on a pipe handle, nil pointer as for `Pipe.rawRead`. -/
def Pipe.rawWrite : Option Pipe → List Nat → WriteOutcome × Option Pipe
  | none, _ => (⟨0, some "EINVAL"⟩, none)
  | some p, bs => ((p.write bs).1, some (p.write bs).2)

/-! ## A scripted transport

A transport whose read calls return a given sequence of results, whatever is
asked: bytes, fewer bytes than asked, no byte, an error. It records the sizes
asked for. -/

/-- State of a scripted transport: the results of the read calls to come, in
order, and the sizes of the read calls made so far. -/
structure Script where
  results : List ReadOutcome
  requests : List Nat
deriving DecidableEq, Repr

/-- A read from a scripted transport returns the next result of the script;
when the script is used up it reports end of file. -/
def Script.read (s : Script) (n : Nat) : ReadOutcome × Script :=
  match s.results with
  | [] => (⟨[], some "EOF"⟩, { s with requests := s.requests ++ [n] })
  | r :: rest => (r, ⟨rest, s.requests ++ [n]⟩)

/-- The C read call on a scripted handle, nil pointer as for `Pipe.rawRead`. -/
def Script.rawRead : Option Script → Nat → ReadOutcome × Option Script
  | none, _ => (⟨[], some "EINVAL"⟩, none)
  | some s, n => ((s.read n).1, some (s.read n).2)

/-! ## A caller's receive loop and the frames of the specification -/

/-- A caller that calls `Receive` `n` times in a row on the same OSS device
with the same `Message` struct; the results of the calls, in order. -/
def ossDevice.receiveLoop {σ ω : Type} (Read : σ → Nat → ReadOutcome × σ) :
    Nat → ossDevice σ ω → Message → List (Received (ossDevice σ ω))
  | 0, _, _ => []
  | n + 1, oss, msg =>
    ossDevice.Receive Read oss msg ::
      ossDevice.receiveLoop Read n (ossDevice.Receive Read oss msg).dev
        (ossDevice.Receive Read oss msg).msg

/-- A caller that calls `Receive` `n` times in a row on the same ALSA device
with the same `Message` struct; the results of the calls, in order. -/
def alsaDevice.receiveLoop {σ ω : Type}
    (snd_rawmidi_read : Option σ → Nat → ReadOutcome × Option σ) :
    Nat → alsaDevice σ ω → Message → List (Received (alsaDevice σ ω))
  | 0, _, _ => []
  | n + 1, alsa, msg =>
    alsaDevice.Receive snd_rawmidi_read alsa msg ::
      alsaDevice.receiveLoop snd_rawmidi_read n
        (alsaDevice.Receive snd_rawmidi_read alsa msg).dev
        (alsaDevice.Receive snd_rawmidi_read alsa msg).msg

/-- Follows the specification's words, not the code: a well-formed channel
frame is a status byte with command {0x8,0x9,0xA,0xB,0xE} followed by two data
bytes, or a status byte with command {0xC,0xD} followed by one data byte. -/
def isChannelFrame : List Nat → Bool
  | [status, d1, d2] =>
    decide (status < 256 ∧ d1 < 256 ∧ d2 < 256 ∧ status >>> 4 ∈ [0x8, 0x9, 0xA, 0xB, 0xE])
  | [status, d1] => decide (status < 256 ∧ d1 < 256 ∧ status >>> 4 ∈ [0xC, 0xD])
  | _ => false

end Midi

/-! ## Byte arithmetic -/

namespace Midi

/-- For a byte, masking with 0xF0 and shifting right by four is shifting right
by four. -/
theorem hi_nibble_of_byte (b : Nat) (hb : b < 256) : (b &&& 0xF0) >>> 4 = b >>> 4 := by
  interval_cases b <;> rfl

/-- The command nibble computed by `Receive` is at most 15, whatever the byte. -/
theorem hi_nibble_le (b : Nat) : (b &&& 0xF0) >>> 4 ≤ 15 := by
  have h : b &&& 0xF0 ≤ 0xF0 := Nat.and_le_right
  rw [Nat.shiftRight_eq_div_pow]
  omega

/-- The command nibble as the code computes it, mask then shift, is the one the
specification words: shift then mask. -/
theorem hi_nibble_shift_mask (b : Nat) : (b &&& 0xF0) >>> 4 = (b >>> 4) &&& 0xF := by
  apply Nat.eq_of_testBit_eq
  intro i
  simp only [Nat.testBit_shiftRight, Nat.testBit_and]
  congr 1
  rw [← Nat.testBit_shiftRight]
  rfl

/-- The channel nibble computed by `Receive` is at most 15, whatever the byte. -/
theorem lo_nibble_le (b : Nat) : b &&& 0x0F ≤ 15 := Nat.and_le_right

/-- A one-byte buffer after a read that delivered one byte. -/
theorem fillBuf_one (s : Nat) : fillBuf 1 [s] = [s % 256] := rfl

/-- A two-byte buffer after a read that delivered two bytes. -/
theorem fillBuf_two (a b : Nat) : fillBuf 2 [a, b] = [a % 256, b % 256] := rfl

/-! ## Decoding a frame -/

/-- OSS: a status byte of the two-data-byte class followed by two data bytes
is decoded into the four byte fields. -/
theorem oss_receive_two_data {σ ω : Type} (Read : σ → Nat → ReadOutcome × σ)
    (oss : ossDevice σ ω) (msg : Message) (f f1 f2 : σ) (status d1 d2 : Nat)
    (hs : status < 256) (h1 : d1 < 256) (h2 : d2 < 256)
    (hc : status >>> 4 ∈ [0x8, 0x9, 0xA, 0xB, 0xE])
    (hin : oss.input = some f) (hr1 : Read f 1 = (⟨[status], none⟩, f1))
    (hr2 : Read f1 2 = (⟨[d1, d2], none⟩, f2)) :
    ossDevice.Receive Read oss msg =
      ⟨none, { oss with input := some f2 },
        { msg with Command := status >>> 4, Channel := status &&& 0x0F,
                   Data1 := d1, Data2 := d2 }⟩ := by
  have hcmd : (byteAt (fillBuf 1 [status]) 0 &&& 0xF0) >>> 4 = status >>> 4 := by
    simp [fillBuf_one, byteAt, Nat.mod_eq_of_lt hs, hi_nibble_of_byte status hs]
  unfold ossDevice.Receive
  simp only [hin, hr1, hr2, hcmd]
  simp only [List.mem_cons, List.mem_singleton, List.not_mem_nil, or_false] at hc
  rcases hc with h | h | h | h | h <;> rw [h] <;>
    simp [fillBuf_one, fillBuf_two, byteAt, Nat.mod_eq_of_lt hs, Nat.mod_eq_of_lt h1,
      Nat.mod_eq_of_lt h2]

/-- ALSA: a status byte of the two-data-byte class followed by two data bytes
is decoded into the four byte fields. -/
theorem alsa_receive_two_data {σ ω : Type}
    (rd : Option σ → Nat → ReadOutcome × Option σ)
    (alsa : alsaDevice σ ω) (msg : Message) (g1 g2 : Option σ) (status d1 d2 : Nat)
    (hs : status < 256) (h1 : d1 < 256) (h2 : d2 < 256)
    (hc : status >>> 4 ∈ [0x8, 0x9, 0xA, 0xB, 0xE])
    (hin : alsa.inputOpen = true) (hr1 : rd alsa.inputDevice 1 = (⟨[status], none⟩, g1))
    (hr2 : rd g1 2 = (⟨[d1, d2], none⟩, g2)) :
    alsaDevice.Receive rd alsa msg =
      ⟨none, { alsa with inputDevice := g2 },
        { msg with Command := status >>> 4, Channel := status &&& 0x0F,
                   Data1 := d1, Data2 := d2 }⟩ := by
  have hcmd : (byteAt (fillBuf 1 [status]) 0 &&& 0xF0) >>> 4 = status >>> 4 := by
    simp [fillBuf_one, byteAt, Nat.mod_eq_of_lt hs, hi_nibble_of_byte status hs]
  unfold alsaDevice.Receive
  simp only [hin, hr1, hr2, hcmd]
  simp only [List.mem_cons, List.mem_singleton, List.not_mem_nil, or_false] at hc
  rcases hc with h | h | h | h | h <;> rw [h] <;>
    simp [fillBuf_one, fillBuf_two, byteAt, Nat.mod_eq_of_lt hs, Nat.mod_eq_of_lt h1,
      Nat.mod_eq_of_lt h2]

/-- OSS: a status byte of the one-data-byte class followed by one data byte
sets Command, Channel and Data1 and nothing else. -/
theorem oss_receive_one_data {σ ω : Type} (Read : σ → Nat → ReadOutcome × σ)
    (oss : ossDevice σ ω) (msg : Message) (f f1 f2 : σ) (status d1 : Nat)
    (hs : status < 256) (h1 : d1 < 256) (hc : status >>> 4 ∈ [0xC, 0xD])
    (hin : oss.input = some f) (hr1 : Read f 1 = (⟨[status], none⟩, f1))
    (hr2 : Read f1 1 = (⟨[d1], none⟩, f2)) :
    ossDevice.Receive Read oss msg =
      ⟨none, { oss with input := some f2 },
        { msg with Command := status >>> 4, Channel := status &&& 0x0F, Data1 := d1 }⟩ := by
  have hcmd : (byteAt (fillBuf 1 [status]) 0 &&& 0xF0) >>> 4 = status >>> 4 := by
    simp [fillBuf_one, byteAt, Nat.mod_eq_of_lt hs, hi_nibble_of_byte status hs]
  unfold ossDevice.Receive
  simp only [hin, hr1, hr2, hcmd]
  simp only [List.mem_cons, List.mem_singleton, List.not_mem_nil, or_false] at hc
  rcases hc with h | h <;> rw [h] <;>
    simp [fillBuf_one, byteAt, Nat.mod_eq_of_lt hs, Nat.mod_eq_of_lt h1]

/-- ALSA: a status byte of the one-data-byte class followed by one data byte
sets Command, Channel and Data1 and nothing else. -/
theorem alsa_receive_one_data {σ ω : Type}
    (rd : Option σ → Nat → ReadOutcome × Option σ)
    (alsa : alsaDevice σ ω) (msg : Message) (g1 g2 : Option σ) (status d1 : Nat)
    (hs : status < 256) (h1 : d1 < 256) (hc : status >>> 4 ∈ [0xC, 0xD])
    (hin : alsa.inputOpen = true) (hr1 : rd alsa.inputDevice 1 = (⟨[status], none⟩, g1))
    (hr2 : rd g1 1 = (⟨[d1], none⟩, g2)) :
    alsaDevice.Receive rd alsa msg =
      ⟨none, { alsa with inputDevice := g2 },
        { msg with Command := status >>> 4, Channel := status &&& 0x0F, Data1 := d1 }⟩ := by
  have hcmd : (byteAt (fillBuf 1 [status]) 0 &&& 0xF0) >>> 4 = status >>> 4 := by
    simp [fillBuf_one, byteAt, Nat.mod_eq_of_lt hs, hi_nibble_of_byte status hs]
  unfold alsaDevice.Receive
  simp only [hin, hr1, hr2, hcmd]
  simp only [List.mem_cons, List.mem_singleton, List.not_mem_nil, or_false] at hc
  rcases hc with h | h <;> rw [h] <;>
    simp [fillBuf_one, byteAt, Nat.mod_eq_of_lt hs, Nat.mod_eq_of_lt h1]

/-- OSS: a status byte with command nibble 0xF is refused after the status
read, whatever that read reported besides the byte. -/
theorem oss_receive_system {σ ω : Type} (Read : σ → Nat → ReadOutcome × σ)
    (oss : ossDevice σ ω) (msg : Message) (f f1 : σ) (status : Nat)
    (hs : status < 256) (hc : status >>> 4 = 0xF)
    (hin : oss.input = some f) (hr1 : Read f 1 = (⟨[status], none⟩, f1)) :
    ossDevice.Receive Read oss msg =
      ⟨some "no SysEx yet sorry", { oss with input := some f1 }, msg⟩ := by
  have hcmd : (byteAt (fillBuf 1 [status]) 0 &&& 0xF0) >>> 4 = 0xF := by
    simp [fillBuf_one, byteAt, Nat.mod_eq_of_lt hs, hi_nibble_of_byte status hs, hc]
  unfold ossDevice.Receive
  simp only [hin, hr1, hcmd]

/-- ALSA: a status byte with command nibble 0xF is refused after the status
read. -/
theorem alsa_receive_system {σ ω : Type}
    (rd : Option σ → Nat → ReadOutcome × Option σ)
    (alsa : alsaDevice σ ω) (msg : Message) (g1 : Option σ) (status : Nat)
    (hs : status < 256) (hc : status >>> 4 = 0xF)
    (hin : alsa.inputOpen = true) (hr1 : rd alsa.inputDevice 1 = (⟨[status], none⟩, g1)) :
    alsaDevice.Receive rd alsa msg =
      ⟨some "no SysEx yet sorry", { alsa with inputDevice := g1 }, msg⟩ := by
  have hcmd : (byteAt (fillBuf 1 [status]) 0 &&& 0xF0) >>> 4 = 0xF := by
    simp [fillBuf_one, byteAt, Nat.mod_eq_of_lt hs, hi_nibble_of_byte status hs, hc]
  unfold alsaDevice.Receive
  simp [hin, hr1, hcmd]

/-! ## Facts on the byte pipe -/

/-- Reading one byte from a pipe that holds at least one. -/
theorem pipe_read_one (a : Nat) (rest log : List Nat) :
    Pipe.read ⟨a :: rest, log⟩ 1 = (⟨[a], none⟩, ⟨rest, log ++ [1]⟩) := by
  simp [Pipe.read]

/-- Reading two bytes from a pipe that holds at least two. -/
theorem pipe_read_two (a b : Nat) (rest log : List Nat) :
    Pipe.read ⟨a :: b :: rest, log⟩ 2 = (⟨[a, b], none⟩, ⟨rest, log ++ [2]⟩) := by
  simp [Pipe.read]

/-- The status byte NoteOn builds for a channel in 1..16: a byte with command
nibble 0x9 and channel nibble channel - 1. -/
theorem noteOn_status (c : Nat) (hc1 : 1 ≤ c) (hc2 : c ≤ 16) :
    0x90 ||| ((c + 256 - 1) % 256) < 256 ∧
    (0x90 ||| ((c + 256 - 1) % 256)) >>> 4 = 0x9 ∧
    (0x90 ||| ((c + 256 - 1) % 256)) &&& 0x0F = c - 1 := by
  interval_cases c <;> decide

/-- OSS NoteOn on a pipe appends its three bytes. -/
theorem oss_noteOn_pipe (tx : ossDevice Pipe Pipe) (p p' : Pipe) (c n v : Nat)
    (hout : tx.output = some p)
    (hp' : (ossDevice.NoteOn Pipe.write tx c n v).output = some p') :
    p'.pending.drop p.pending.length = [0x90 ||| ((c + 256 - 1) % 256), n, v] := by
  simp only [ossDevice.NoteOn, hout, Pipe.write, Option.some.injEq] at hp'
  subst hp'
  simp

/-- ALSA NoteOn on a pipe appends its three bytes. -/
theorem alsa_noteOn_pipe (tx : alsaDevice Pipe Pipe) (p p' : Pipe) (c n v : Nat)
    (hopen : tx.outputOpen = true) (hout : tx.outputDevice = some p)
    (hp' : (alsaDevice.NoteOn Pipe.rawWrite tx c n v).outputDevice = some p') :
    p'.pending.drop p.pending.length = [0x90 ||| ((c + 256 - 1) % 256), n, v] := by
  simp only [alsaDevice.NoteOn, hopen, hout, Pipe.rawWrite, Pipe.write, if_true,
    Option.some.injEq] at hp'
  subst hp'
  simp

/-- OSS Receive on a pipe that holds exactly the three bytes of a Note On
frame for a channel in 1..16. -/
theorem oss_receive_noteOn_frame (rx : ossDevice Pipe Pipe) (log : List Nat) (c n v : Nat)
    (hc1 : 1 ≤ c) (hc2 : c ≤ 16) (hn : n ≤ 127) (hv : v ≤ 127) (msg : Message)
    (hin : rx.input = some ⟨[0x90 ||| ((c + 256 - 1) % 256), n, v], log⟩) :
    ossDevice.Receive Pipe.read rx msg =
      ⟨none, { rx with input := some ⟨[], log ++ [1, 2]⟩ },
        ⟨0x9, c - 1, n, v, msg.SysEx⟩⟩ := by
  obtain ⟨hs, hcmd, hch⟩ := noteOn_status c hc1 hc2
  have h := oss_receive_two_data Pipe.read rx msg _ _ _ _ n v hs (by omega) (by omega)
    (by rw [hcmd]; decide) hin (pipe_read_one _ _ _) (pipe_read_two _ _ _ _)
  rw [h, hcmd, hch]
  simp

/-- ALSA Receive on a pipe that holds exactly the three bytes of a Note On
frame for a channel in 1..16. -/
theorem alsa_receive_noteOn_frame (rx : alsaDevice Pipe Pipe) (log : List Nat) (c n v : Nat)
    (hc1 : 1 ≤ c) (hc2 : c ≤ 16) (hn : n ≤ 127) (hv : v ≤ 127) (msg : Message)
    (hopen : rx.inputOpen = true)
    (hin : rx.inputDevice = some ⟨[0x90 ||| ((c + 256 - 1) % 256), n, v], log⟩) :
    alsaDevice.Receive Pipe.rawRead rx msg =
      ⟨none, { rx with inputDevice := some ⟨[], log ++ [1, 2]⟩ },
        ⟨0x9, c - 1, n, v, msg.SysEx⟩⟩ := by
  obtain ⟨hs, hcmd, hch⟩ := noteOn_status c hc1 hc2
  have h := alsa_receive_two_data Pipe.rawRead rx msg
    (some ⟨[n, v], log ++ [1]⟩) (some ⟨[], log ++ [1] ++ [2]⟩) _ n v hs (by omega) (by omega)
    (by rw [hcmd]; decide) hopen (by rw [hin]; simp [Pipe.rawRead, pipe_read_one])
    (by simp [Pipe.rawRead, pipe_read_two])
  rw [h, hcmd, hch]
  simp

/-! ## Claims on decoding -/

/-- C1. For every status byte whose command nibble is in {0x8,0x9,0xA,0xB,0xE}
and every two data bytes d1, d2: on a device open for input whose transport
delivers the status byte to the status read and d1, d2 to the data read,
Receive succeeds and leaves the Message with Command = status >> 4,
Channel = status & 0x0F, Data1 = d1 and Data2 = d2 (SysEx as it was). Holds
for the OSS and for the ALSA device. -/
theorem receive_two_data_frame (status d1 d2 : Nat) (hs : status < 256) (h1 : d1 < 256)
    (h2 : d2 < 256) (hc : status >>> 4 ∈ [0x8, 0x9, 0xA, 0xB, 0xE]) (msg : Message) :
    (∀ (σ ω : Type) (Read : σ → Nat → ReadOutcome × σ) (oss : ossDevice σ ω) (f f1 f2 : σ),
      oss.input = some f → Read f 1 = (⟨[status], none⟩, f1) →
      Read f1 2 = (⟨[d1, d2], none⟩, f2) →
      ossDevice.Receive Read oss msg =
        ⟨none, { oss with input := some f2 },
          { msg with Command := status >>> 4, Channel := status &&& 0x0F,
                     Data1 := d1, Data2 := d2 }⟩) ∧
    (∀ (σ ω : Type) (rd : Option σ → Nat → ReadOutcome × Option σ) (alsa : alsaDevice σ ω)
      (g1 g2 : Option σ),
      alsa.inputOpen = true → rd alsa.inputDevice 1 = (⟨[status], none⟩, g1) →
      rd g1 2 = (⟨[d1, d2], none⟩, g2) →
      alsaDevice.Receive rd alsa msg =
        ⟨none, { alsa with inputDevice := g2 },
          { msg with Command := status >>> 4, Channel := status &&& 0x0F,
                     Data1 := d1, Data2 := d2 }⟩) :=
  ⟨fun _ _ Read oss f f1 f2 hin hr1 hr2 =>
      oss_receive_two_data Read oss msg f f1 f2 status d1 d2 hs h1 h2 hc hin hr1 hr2,
    fun _ _ rd alsa g1 g2 hin hr1 hr2 =>
      alsa_receive_two_data rd alsa msg g1 g2 status d1 d2 hs h1 h2 hc hin hr1 hr2⟩

/-- C1 at the bytes [0x91, 0x3C, 0x7F] waiting in a pipe: command 0x9,
channel 1, data1 60, data2 127, on both backends. -/
theorem receive_two_data_frame_witness :
    ossDevice.Receive Pipe.read
        (⟨"/dev/snd/midiC0D0", some ⟨[0x91, 0x3C, 0x7F], []⟩, none⟩ : ossDevice Pipe Pipe)
        ⟨0, 0, 0, 0, []⟩ =
      ⟨none, ⟨"/dev/snd/midiC0D0", some ⟨[], [1, 2]⟩, none⟩, ⟨0x9, 1, 60, 127, []⟩⟩ ∧
    alsaDevice.Receive Pipe.rawRead
        (⟨some ⟨[0x91, 0x3C, 0x7F], []⟩, none, "hw:1,0", "UM-1", true, false, true, false⟩ :
          alsaDevice Pipe Pipe)
        ⟨0, 0, 0, 0, []⟩ =
      ⟨none, ⟨some ⟨[], [1, 2]⟩, none, "hw:1,0", "UM-1", true, false, true, false⟩,
        ⟨0x9, 1, 60, 127, []⟩⟩ :=
  ⟨(receive_two_data_frame 0x91 0x3C 0x7F (by decide) (by decide) (by decide) (by decide)
      ⟨0, 0, 0, 0, []⟩).1 Pipe Pipe Pipe.read _ ⟨[0x91, 0x3C, 0x7F], []⟩ ⟨[0x3C, 0x7F], [1]⟩
      ⟨[], [1, 2]⟩ rfl rfl rfl,
    (receive_two_data_frame 0x91 0x3C 0x7F (by decide) (by decide) (by decide) (by decide)
      ⟨0, 0, 0, 0, []⟩).2 Pipe Pipe Pipe.rawRead _ (some ⟨[0x3C, 0x7F], [1]⟩)
      (some ⟨[], [1, 2]⟩) rfl rfl rfl⟩

/-- C2, as stated, fails: the one-data-byte branch never assigns Data2. With
the bytes [0xC2, 0x05] waiting and a Message that still holds the Note On
{0x9, 1, 60, 127}, Receive succeeds with command 0xC, channel 2, data1 5 and
data2 127, not 0. -/
theorem receive_one_data_keeps_old_data2 :
    (ossDevice.Receive Pipe.read
        (⟨"/dev/snd/midiC0D0", some ⟨[0xC2, 0x05], []⟩, none⟩ : ossDevice Pipe Pipe)
        ⟨0x9, 1, 60, 127, []⟩).err = none ∧
    (ossDevice.Receive Pipe.read
        (⟨"/dev/snd/midiC0D0", some ⟨[0xC2, 0x05], []⟩, none⟩ : ossDevice Pipe Pipe)
        ⟨0x9, 1, 60, 127, []⟩).msg = ⟨0xC, 2, 5, 127, []⟩ ∧
    (ossDevice.Receive Pipe.read
        (⟨"/dev/snd/midiC0D0", some ⟨[0xC2, 0x05], []⟩, none⟩ : ossDevice Pipe Pipe)
        ⟨0x9, 1, 60, 127, []⟩).msg.Data2 ≠ 0 := by
  decide

/-- C2, amended. For every status byte whose command nibble is in {0xC,0xD}
and every data byte d1: on a device open for input whose transport delivers the
status byte and then d1, Receive succeeds with Command = status >> 4,
Channel = status & 0x0F and Data1 = d1, and leaves Data2 (and SysEx) as the
Message passed in held them, whatever the transport holds after these two
bytes. So Data2 is 0 exactly when the Message passed in had Data2 = 0. Holds
for the OSS and for the ALSA device. -/
theorem receive_one_data_frame (status d1 : Nat) (hs : status < 256) (h1 : d1 < 256)
    (hc : status >>> 4 ∈ [0xC, 0xD]) (msg : Message) :
    (∀ (σ ω : Type) (Read : σ → Nat → ReadOutcome × σ) (oss : ossDevice σ ω) (f f1 f2 : σ),
      oss.input = some f → Read f 1 = (⟨[status], none⟩, f1) →
      Read f1 1 = (⟨[d1], none⟩, f2) →
      ossDevice.Receive Read oss msg =
        ⟨none, { oss with input := some f2 },
          ⟨status >>> 4, status &&& 0x0F, d1, msg.Data2, msg.SysEx⟩⟩) ∧
    (∀ (σ ω : Type) (rd : Option σ → Nat → ReadOutcome × Option σ) (alsa : alsaDevice σ ω)
      (g1 g2 : Option σ),
      alsa.inputOpen = true → rd alsa.inputDevice 1 = (⟨[status], none⟩, g1) →
      rd g1 1 = (⟨[d1], none⟩, g2) →
      alsaDevice.Receive rd alsa msg =
        ⟨none, { alsa with inputDevice := g2 },
          ⟨status >>> 4, status &&& 0x0F, d1, msg.Data2, msg.SysEx⟩⟩) :=
  ⟨fun _ _ Read oss f f1 f2 hin hr1 hr2 =>
      oss_receive_one_data Read oss msg f f1 f2 status d1 hs h1 hc hin hr1 hr2,
    fun _ _ rd alsa g1 g2 hin hr1 hr2 =>
      alsa_receive_one_data rd alsa msg g1 g2 status d1 hs h1 hc hin hr1 hr2⟩

/-- C2 amended, at the bytes [0xC2, 0x05] followed by two more bytes: into a
zero Message the result is command 0xC, channel 2, data1 5, data2 0 (OSS);
into a Message holding data2 127 the result keeps 127 (ALSA). The two bytes
that follow stay in the pipe. -/
theorem receive_one_data_frame_witness :
    ossDevice.Receive Pipe.read
        (⟨"/dev/snd/midiC0D0", some ⟨[0xC2, 0x05, 0x90, 0x3C], []⟩, none⟩ :
          ossDevice Pipe Pipe)
        ⟨0, 0, 0, 0, []⟩ =
      ⟨none, ⟨"/dev/snd/midiC0D0", some ⟨[0x90, 0x3C], [1, 1]⟩, none⟩,
        ⟨0xC, 2, 5, 0, []⟩⟩ ∧
    alsaDevice.Receive Pipe.rawRead
        (⟨some ⟨[0xC2, 0x05, 0x90, 0x3C], []⟩, none, "hw:1,0", "UM-1", true, false, true,
          false⟩ : alsaDevice Pipe Pipe)
        ⟨0x9, 1, 60, 127, []⟩ =
      ⟨none, ⟨some ⟨[0x90, 0x3C], [1, 1]⟩, none, "hw:1,0", "UM-1", true, false, true, false⟩,
        ⟨0xC, 2, 5, 127, []⟩⟩ :=
  ⟨(receive_one_data_frame 0xC2 0x05 (by decide) (by decide) (by decide)
      ⟨0, 0, 0, 0, []⟩).1 Pipe Pipe Pipe.read _ ⟨[0xC2, 0x05, 0x90, 0x3C], []⟩
      ⟨[0x05, 0x90, 0x3C], [1]⟩ ⟨[0x90, 0x3C], [1, 1]⟩ rfl rfl rfl,
    (receive_one_data_frame 0xC2 0x05 (by decide) (by decide) (by decide)
      ⟨0x9, 1, 60, 127, []⟩).2 Pipe Pipe Pipe.rawRead _ (some ⟨[0x05, 0x90, 0x3C], [1]⟩)
      (some ⟨[0x90, 0x3C], [1, 1]⟩) rfl rfl rfl⟩

/-- C4. For every status byte with high nibble 0xF (0xF0..0xFF): on a device
open for input whose transport delivers that byte to the status read, Receive
fails with the error "no SysEx yet sorry", the input handle is left in the
state the status read produced (one byte taken, nothing pushed back, no
further read, for every transport), and every field of the Message passed in
is unchanged. Holds for the OSS and for the ALSA device. -/
theorem receive_system_status_fails (status : Nat) (hlo : 0xF0 ≤ status)
    (hhi : status ≤ 0xFF) (msg : Message) :
    (∀ (σ ω : Type) (Read : σ → Nat → ReadOutcome × σ) (oss : ossDevice σ ω) (f f1 : σ),
      oss.input = some f → Read f 1 = (⟨[status], none⟩, f1) →
      ossDevice.Receive Read oss msg =
        ⟨some "no SysEx yet sorry", { oss with input := some f1 }, msg⟩) ∧
    (∀ (σ ω : Type) (rd : Option σ → Nat → ReadOutcome × Option σ) (alsa : alsaDevice σ ω)
      (g1 : Option σ),
      alsa.inputOpen = true → rd alsa.inputDevice 1 = (⟨[status], none⟩, g1) →
      alsaDevice.Receive rd alsa msg =
        ⟨some "no SysEx yet sorry", { alsa with inputDevice := g1 }, msg⟩) := by
  have hs : status < 256 := by omega
  have hc : status >>> 4 = 0xF := by
    rw [Nat.shiftRight_eq_div_pow]
    omega
  exact ⟨fun _ _ Read oss f f1 hin hr1 =>
      oss_receive_system Read oss msg f f1 status hs hc hin hr1,
    fun _ _ rd alsa g1 hin hr1 =>
      alsa_receive_system rd alsa msg g1 status hs hc hin hr1⟩

/-- C4 at the byte 0xF0 followed by two more bytes in a pipe: the error is
returned, one read of one byte was made, the two bytes that follow are still
waiting, and the Message is the one passed in. -/
theorem receive_system_status_fails_witness :
    ossDevice.Receive Pipe.read
        (⟨"/dev/snd/midiC0D0", some ⟨[0xF0, 0x7E, 0xF7], []⟩, none⟩ : ossDevice Pipe Pipe)
        ⟨0x9, 1, 60, 127, [1, 2]⟩ =
      ⟨some "no SysEx yet sorry", ⟨"/dev/snd/midiC0D0", some ⟨[0x7E, 0xF7], [1]⟩, none⟩,
        ⟨0x9, 1, 60, 127, [1, 2]⟩⟩ ∧
    alsaDevice.Receive Pipe.rawRead
        (⟨some ⟨[0xF0, 0x7E, 0xF7], []⟩, none, "hw:1,0", "UM-1", true, false, true, false⟩ :
          alsaDevice Pipe Pipe)
        ⟨0x9, 1, 60, 127, [1, 2]⟩ =
      ⟨some "no SysEx yet sorry",
        ⟨some ⟨[0x7E, 0xF7], [1]⟩, none, "hw:1,0", "UM-1", true, false, true, false⟩,
        ⟨0x9, 1, 60, 127, [1, 2]⟩⟩ :=
  ⟨(receive_system_status_fails 0xF0 (by decide) (by decide) ⟨0x9, 1, 60, 127, [1, 2]⟩).1
      Pipe Pipe Pipe.read _ ⟨[0xF0, 0x7E, 0xF7], []⟩ ⟨[0x7E, 0xF7], [1]⟩ rfl rfl,
    (receive_system_status_fails 0xF0 (by decide) (by decide) ⟨0x9, 1, 60, 127, [1, 2]⟩).2
      Pipe Pipe Pipe.rawRead _ (some ⟨[0x7E, 0xF7], [1]⟩) rfl rfl⟩

/-- C3. Round trip: for every channel c in 1..16 and every note n and
velocity v in 0..127, the bytes that NoteOn(c, n, v) appends to the pipe of an
output-open device, fed to Receive on an input-open device, yield success and a
Message with Command = 0x9, Channel = c - 1, Data1 = n and Data2 = v; Receive
makes one read of 1 byte and one of 2 bytes and leaves the pipe empty. Holds
from OSS to OSS, from ALSA to ALSA and across the two backends. -/
theorem noteOn_receive_round_trip (c n v : Nat) (hc1 : 1 ≤ c) (hc2 : c ≤ 16)
    (hn : n ≤ 127) (hv : v ≤ 127) (msg : Message) :
    (∀ (tx rx : ossDevice Pipe Pipe) (p p' : Pipe) (log : List Nat),
      tx.output = some p → (ossDevice.NoteOn Pipe.write tx c n v).output = some p' →
      rx.input = some ⟨p'.pending.drop p.pending.length, log⟩ →
      ossDevice.Receive Pipe.read rx msg =
        ⟨none, { rx with input := some ⟨[], log ++ [1, 2]⟩ },
          ⟨0x9, c - 1, n, v, msg.SysEx⟩⟩) ∧
    (∀ (tx rx : alsaDevice Pipe Pipe) (p p' : Pipe) (log : List Nat),
      tx.outputOpen = true → tx.outputDevice = some p →
      (alsaDevice.NoteOn Pipe.rawWrite tx c n v).outputDevice = some p' →
      rx.inputOpen = true → rx.inputDevice = some ⟨p'.pending.drop p.pending.length, log⟩ →
      alsaDevice.Receive Pipe.rawRead rx msg =
        ⟨none, { rx with inputDevice := some ⟨[], log ++ [1, 2]⟩ },
          ⟨0x9, c - 1, n, v, msg.SysEx⟩⟩) ∧
    (∀ (tx : alsaDevice Pipe Pipe) (rx : ossDevice Pipe Pipe) (p p' : Pipe) (log : List Nat),
      tx.outputOpen = true → tx.outputDevice = some p →
      (alsaDevice.NoteOn Pipe.rawWrite tx c n v).outputDevice = some p' →
      rx.input = some ⟨p'.pending.drop p.pending.length, log⟩ →
      ossDevice.Receive Pipe.read rx msg =
        ⟨none, { rx with input := some ⟨[], log ++ [1, 2]⟩ },
          ⟨0x9, c - 1, n, v, msg.SysEx⟩⟩) ∧
    (∀ (tx : ossDevice Pipe Pipe) (rx : alsaDevice Pipe Pipe) (p p' : Pipe) (log : List Nat),
      tx.output = some p → (ossDevice.NoteOn Pipe.write tx c n v).output = some p' →
      rx.inputOpen = true → rx.inputDevice = some ⟨p'.pending.drop p.pending.length, log⟩ →
      alsaDevice.Receive Pipe.rawRead rx msg =
        ⟨none, { rx with inputDevice := some ⟨[], log ++ [1, 2]⟩ },
          ⟨0x9, c - 1, n, v, msg.SysEx⟩⟩) := by
  refine ⟨?_, ?_, ?_, ?_⟩
  · intro tx rx p p' log hout hp' hin
    rw [oss_noteOn_pipe tx p p' c n v hout hp'] at hin
    exact oss_receive_noteOn_frame rx log c n v hc1 hc2 hn hv msg hin
  · intro tx rx p p' log hopen hout hp' hropen hin
    rw [alsa_noteOn_pipe tx p p' c n v hopen hout hp'] at hin
    exact alsa_receive_noteOn_frame rx log c n v hc1 hc2 hn hv msg hropen hin
  · intro tx rx p p' log hopen hout hp' hin
    rw [alsa_noteOn_pipe tx p p' c n v hopen hout hp'] at hin
    exact oss_receive_noteOn_frame rx log c n v hc1 hc2 hn hv msg hin
  · intro tx rx p p' log hout hp' hropen hin
    rw [oss_noteOn_pipe tx p p' c n v hout hp'] at hin
    exact alsa_receive_noteOn_frame rx log c n v hc1 hc2 hn hv msg hropen hin

/-- C3 at NoteOn(2, 60, 127): the OSS device writes into an empty pipe, the
pipe then holds [0x91, 60, 127], and Receive on those bytes gives command 0x9,
channel 1, data1 60, data2 127. -/
theorem noteOn_receive_round_trip_witness :
    (ossDevice.NoteOn Pipe.write
        (⟨"/dev/snd/midiC0D0", none, some ⟨[], []⟩⟩ : ossDevice Pipe Pipe) 2 60 127).output =
      some ⟨[0x91, 60, 127], []⟩ ∧
    ossDevice.Receive Pipe.read
        (⟨"/dev/snd/midiC1D0", some ⟨[0x91, 60, 127], []⟩, none⟩ : ossDevice Pipe Pipe)
        ⟨0, 0, 0, 0, []⟩ =
      ⟨none, ⟨"/dev/snd/midiC1D0", some ⟨[], [1, 2]⟩, none⟩, ⟨0x9, 1, 60, 127, []⟩⟩ :=
  ⟨rfl,
    (noteOn_receive_round_trip 2 60 127 (by decide) (by decide) (by decide) (by decide)
      ⟨0, 0, 0, 0, []⟩).1 ⟨"/dev/snd/midiC0D0", none, some ⟨[], []⟩⟩
      ⟨"/dev/snd/midiC1D0", some ⟨[0x91, 60, 127], []⟩, none⟩ ⟨[], []⟩ ⟨[0x91, 60, 127], []⟩
      [] rfl rfl rfl⟩

/-- C5, as stated, fails: no data byte is checked. With the bytes
[0x90, 0x80, 0xFF] waiting, both data bytes have the high bit set and Receive
succeeds, returning data1 128 and data2 255. -/
theorem receive_accepts_high_bit_data :
    (ossDevice.Receive Pipe.read
        (⟨"/dev/snd/midiC0D0", some ⟨[0x90, 0x80, 0xFF], []⟩, none⟩ : ossDevice Pipe Pipe)
        ⟨0, 0, 0, 0, []⟩).err = none ∧
    (ossDevice.Receive Pipe.read
        (⟨"/dev/snd/midiC0D0", some ⟨[0x90, 0x80, 0xFF], []⟩, none⟩ : ossDevice Pipe Pipe)
        ⟨0, 0, 0, 0, []⟩).msg = ⟨0x9, 0, 128, 255, []⟩ ∧
    ¬ (ossDevice.Receive Pipe.read
        (⟨"/dev/snd/midiC0D0", some ⟨[0x90, 0x80, 0xFF], []⟩, none⟩ : ossDevice Pipe Pipe)
        ⟨0, 0, 0, 0, []⟩).msg.Data1 ≤ 127 := by
  decide

/-- C5, amended. For every well-formed channel status byte (command nibble
0x8..0xE) Receive makes no check on the data bytes: when the data read reports
no error Receive succeeds, whether a data byte has its high bit set or not, and
stores the bytes as delivered: Data1 is the first data byte; Data2 is the
second data byte for the two-data-byte commands and is left as passed in for
the one-data-byte commands {0xC,0xD}. So Data1 and Data2 of a returned Message
are in 0..127 only when the bytes stored there were. Holds for the OSS and for
the ALSA device. -/
theorem receive_data_bytes_unchecked (status d1 d2 : Nat) (hlo : 0x80 ≤ status)
    (hhi : status ≤ 0xEF) (h1 : d1 < 256) (h2 : d2 < 256) (msg : Message) :
    (∀ (σ ω : Type) (Read : σ → Nat → ReadOutcome × σ) (oss : ossDevice σ ω) (f f1 f2 : σ),
      oss.input = some f → Read f 1 = (⟨[status], none⟩, f1) →
      (status >>> 4 ∈ [0xC, 0xD] → Read f1 1 = (⟨[d1], none⟩, f2) →
        (ossDevice.Receive Read oss msg).err = none ∧
        (ossDevice.Receive Read oss msg).msg.Data1 = d1 ∧
        (ossDevice.Receive Read oss msg).msg.Data2 = msg.Data2) ∧
      (status >>> 4 ∉ [0xC, 0xD] → Read f1 2 = (⟨[d1, d2], none⟩, f2) →
        (ossDevice.Receive Read oss msg).err = none ∧
        (ossDevice.Receive Read oss msg).msg.Data1 = d1 ∧
        (ossDevice.Receive Read oss msg).msg.Data2 = d2)) ∧
    (∀ (σ ω : Type) (rd : Option σ → Nat → ReadOutcome × Option σ) (alsa : alsaDevice σ ω)
      (g1 g2 : Option σ),
      alsa.inputOpen = true → rd alsa.inputDevice 1 = (⟨[status], none⟩, g1) →
      (status >>> 4 ∈ [0xC, 0xD] → rd g1 1 = (⟨[d1], none⟩, g2) →
        (alsaDevice.Receive rd alsa msg).err = none ∧
        (alsaDevice.Receive rd alsa msg).msg.Data1 = d1 ∧
        (alsaDevice.Receive rd alsa msg).msg.Data2 = msg.Data2) ∧
      (status >>> 4 ∉ [0xC, 0xD] → rd g1 2 = (⟨[d1, d2], none⟩, g2) →
        (alsaDevice.Receive rd alsa msg).err = none ∧
        (alsaDevice.Receive rd alsa msg).msg.Data1 = d1 ∧
        (alsaDevice.Receive rd alsa msg).msg.Data2 = d2)) := by
  have hs : status < 256 := by omega
  have htwo : status >>> 4 ∉ [0xC, 0xD] → status >>> 4 ∈ [0x8, 0x9, 0xA, 0xB, 0xE] := by
    rw [Nat.shiftRight_eq_div_pow]
    simp only [List.mem_cons, List.mem_singleton, List.not_mem_nil, or_false]
    omega
  refine ⟨?_, ?_⟩
  · intro σ ω Read oss f f1 f2 hin hr1
    refine ⟨fun hc hr2 => ?_, fun hc hr2 => ?_⟩
    · rw [oss_receive_one_data Read oss msg f f1 f2 status d1 hs h1 hc hin hr1 hr2]
      exact ⟨rfl, rfl, rfl⟩
    · rw [oss_receive_two_data Read oss msg f f1 f2 status d1 d2 hs h1 h2 (htwo hc) hin hr1
        hr2]
      exact ⟨rfl, rfl, rfl⟩
  · intro σ ω rd alsa g1 g2 hin hr1
    refine ⟨fun hc hr2 => ?_, fun hc hr2 => ?_⟩
    · rw [alsa_receive_one_data rd alsa msg g1 g2 status d1 hs h1 hc hin hr1 hr2]
      exact ⟨rfl, rfl, rfl⟩
    · rw [alsa_receive_two_data rd alsa msg g1 g2 status d1 d2 hs h1 h2 (htwo hc) hin hr1
        hr2]
      exact ⟨rfl, rfl, rfl⟩

/-- C5 amended, at the bytes [0x90, 0x80, 0xFF] on the ALSA device: success,
data1 128 and data2 255. -/
theorem receive_data_bytes_unchecked_witness :
    (alsaDevice.Receive Pipe.rawRead
        (⟨some ⟨[0x90, 0x80, 0xFF], []⟩, none, "hw:1,0", "UM-1", true, false, true, false⟩ :
          alsaDevice Pipe Pipe)
        ⟨0, 0, 0, 0, []⟩).err = none ∧
    (alsaDevice.Receive Pipe.rawRead
        (⟨some ⟨[0x90, 0x80, 0xFF], []⟩, none, "hw:1,0", "UM-1", true, false, true, false⟩ :
          alsaDevice Pipe Pipe)
        ⟨0, 0, 0, 0, []⟩).msg.Data1 = 0x80 ∧
    (alsaDevice.Receive Pipe.rawRead
        (⟨some ⟨[0x90, 0x80, 0xFF], []⟩, none, "hw:1,0", "UM-1", true, false, true, false⟩ :
          alsaDevice Pipe Pipe)
        ⟨0, 0, 0, 0, []⟩).msg.Data2 = 0xFF :=
  ((receive_data_bytes_unchecked 0x90 0x80 0xFF (by decide) (by decide) (by decide)
      (by decide) ⟨0, 0, 0, 0, []⟩).2 Pipe Pipe Pipe.rawRead
      ⟨some ⟨[0x90, 0x80, 0xFF], []⟩, none, "hw:1,0", "UM-1", true, false, true, false⟩
      (some ⟨[0x80, 0xFF], [1]⟩) (some ⟨[], [1, 2]⟩) rfl rfl).2 (by decide) rfl

/-! ## Claims on sending -/

/-- C6. On both backends, for every channel in 1..16 and all d1, d2 (all
bytes in particular), each of NoteOn, NoteOff and KeyAftertouch called on a device whose output is
open makes exactly one write call, of the 3-byte frame
[base | (channel-1), d1, d2] with base 0x90 for NoteOn, 0x80 for NoteOff and
0xA0 for KeyAftertouch, and changes nothing else: the device after the call is
the device before it with the output handle in the state that one write left,
for every transport. -/
theorem note_sends_write_one_frame (channel d1 d2 : Nat) (hc1 : 1 ≤ channel)
    (hc2 : channel ≤ 16) :
    (∀ (σ ω : Type) (Write : ω → List Nat → WriteOutcome × ω) (oss : ossDevice σ ω) (f : ω),
      oss.output = some f →
      ossDevice.NoteOn Write oss channel d1 d2 =
        { oss with output := some (Write f [0x90 ||| (channel - 1), d1, d2]).2 } ∧
      ossDevice.NoteOff Write oss channel d1 d2 =
        { oss with output := some (Write f [0x80 ||| (channel - 1), d1, d2]).2 } ∧
      ossDevice.KeyAftertouch Write oss channel d1 d2 =
        { oss with output := some (Write f [0xA0 ||| (channel - 1), d1, d2]).2 }) ∧
    (∀ (σ ω : Type) (wr : Option ω → List Nat → WriteOutcome × Option ω)
      (alsa : alsaDevice σ ω),
      alsa.outputOpen = true →
      alsaDevice.NoteOn wr alsa channel d1 d2 =
        { alsa with
          outputDevice := (wr alsa.outputDevice [0x90 ||| (channel - 1), d1, d2]).2 } ∧
      alsaDevice.NoteOff wr alsa channel d1 d2 =
        { alsa with
          outputDevice := (wr alsa.outputDevice [0x80 ||| (channel - 1), d1, d2]).2 } ∧
      alsaDevice.KeyAftertouch wr alsa channel d1 d2 =
        { alsa with
          outputDevice := (wr alsa.outputDevice [0xA0 ||| (channel - 1), d1, d2]).2 }) := by
  have hch : (channel + 255) % 256 = channel - 1 := by omega
  refine ⟨?_, ?_⟩
  · intro σ ω Write oss f hout
    simp [ossDevice.NoteOn, ossDevice.NoteOff, ossDevice.KeyAftertouch, hout, hch]
  · intro σ ω wr alsa hopen
    simp [alsaDevice.NoteOn, alsaDevice.NoteOff, alsaDevice.KeyAftertouch, hopen, hch]

/-- C6 at channel 2, bytes 60 and 127, on pipes that already hold one byte:
each call appends its three bytes and nothing else. -/
theorem note_sends_write_one_frame_witness :
    (ossDevice.NoteOn Pipe.write
        (⟨"/dev/snd/midiC0D0", none, some ⟨[0xFE], []⟩⟩ : ossDevice Pipe Pipe) 2 60 127 =
      ⟨"/dev/snd/midiC0D0", none, some ⟨[0xFE, 0x91, 60, 127], []⟩⟩ ∧
    ossDevice.NoteOff Pipe.write
        (⟨"/dev/snd/midiC0D0", none, some ⟨[0xFE], []⟩⟩ : ossDevice Pipe Pipe) 2 60 127 =
      ⟨"/dev/snd/midiC0D0", none, some ⟨[0xFE, 0x81, 60, 127], []⟩⟩ ∧
    ossDevice.KeyAftertouch Pipe.write
        (⟨"/dev/snd/midiC0D0", none, some ⟨[0xFE], []⟩⟩ : ossDevice Pipe Pipe) 2 60 127 =
      ⟨"/dev/snd/midiC0D0", none, some ⟨[0xFE, 0xA1, 60, 127], []⟩⟩) ∧
    (alsaDevice.NoteOn Pipe.rawWrite
        (⟨none, some ⟨[0xFE], []⟩, "hw:1,0", "UM-1", false, true, false, true⟩ :
          alsaDevice Pipe Pipe) 2 60 127 =
      ⟨none, some ⟨[0xFE, 0x91, 60, 127], []⟩, "hw:1,0", "UM-1", false, true, false, true⟩ ∧
    alsaDevice.NoteOff Pipe.rawWrite
        (⟨none, some ⟨[0xFE], []⟩, "hw:1,0", "UM-1", false, true, false, true⟩ :
          alsaDevice Pipe Pipe) 2 60 127 =
      ⟨none, some ⟨[0xFE, 0x81, 60, 127], []⟩, "hw:1,0", "UM-1", false, true, false, true⟩ ∧
    alsaDevice.KeyAftertouch Pipe.rawWrite
        (⟨none, some ⟨[0xFE], []⟩, "hw:1,0", "UM-1", false, true, false, true⟩ :
          alsaDevice Pipe Pipe) 2 60 127 =
      ⟨none, some ⟨[0xFE, 0xA1, 60, 127], []⟩, "hw:1,0", "UM-1", false, true, false,
        true⟩) :=
  ⟨(note_sends_write_one_frame 2 60 127 (by decide) (by decide)).1
      Pipe Pipe Pipe.write ⟨"/dev/snd/midiC0D0", none, some ⟨[0xFE], []⟩⟩ ⟨[0xFE], []⟩ rfl,
    (note_sends_write_one_frame 2 60 127 (by decide) (by decide)).2
      Pipe Pipe Pipe.rawWrite
      ⟨none, some ⟨[0xFE], []⟩, "hw:1,0", "UM-1", false, true, false, true⟩ rfl⟩

/-- C7 on the code: ControllerChange(1, 7, 100) on an OSS device whose output
is open on an empty pipe leaves the pipe empty (the method body is empty),
while the same call on an ALSA device writes the frame [0xB0, 7, 100]. -/
theorem oss_controllerChange_writes_nothing :
    ossDevice.ControllerChange
        (⟨"/dev/snd/midiC0D0", none, some ⟨[], []⟩⟩ : ossDevice Pipe Pipe) 1 7 100 =
      ⟨"/dev/snd/midiC0D0", none, some ⟨[], []⟩⟩ ∧
    alsaDevice.ControllerChange Pipe.rawWrite
        (⟨none, some ⟨[], []⟩, "hw:1,0", "UM-1", false, true, false, true⟩ :
          alsaDevice Pipe Pipe) 1 7 100 =
      ⟨none, some ⟨[0xB0, 7, 100], []⟩, "hw:1,0", "UM-1", false, true, false, true⟩ :=
  ⟨rfl, rfl⟩

/-- C8. For every backend, every channel-voice send operation (NoteOn,
NoteOff, KeyAftertouch, ControllerChange, ProgramChange, ChannelAftertouch,
PitchBend, ChannelMode) and every argument value, calling it on a device whose
output side is not open returns the device as it was, all fields and both
handles included, so no write call reached the transport; this holds for every
transport. -/
theorem sends_without_output_are_noops :
    (∀ (σ ω : Type) (Write : ω → List Nat → WriteOutcome × ω) (oss : ossDevice σ ω)
      (channel a b amount : Nat),
      oss.output = none →
      ossDevice.NoteOn Write oss channel a b = oss ∧
      ossDevice.NoteOff Write oss channel a b = oss ∧
      ossDevice.KeyAftertouch Write oss channel a b = oss ∧
      ossDevice.ControllerChange oss channel a b = oss ∧
      ossDevice.ProgramChange oss channel a = oss ∧
      ossDevice.ChannelAftertouch oss channel a = oss ∧
      ossDevice.PitchBend oss channel amount = oss ∧
      ossDevice.ChannelMode oss channel a = oss) ∧
    (∀ (σ ω : Type) (wr : Option ω → List Nat → WriteOutcome × Option ω)
      (alsa : alsaDevice σ ω) (channel a b amount : Nat),
      alsa.outputOpen = false →
      alsaDevice.NoteOn wr alsa channel a b = alsa ∧
      alsaDevice.NoteOff wr alsa channel a b = alsa ∧
      alsaDevice.KeyAftertouch wr alsa channel a b = alsa ∧
      alsaDevice.ControllerChange wr alsa channel a b = alsa ∧
      alsaDevice.ProgramChange alsa channel a = alsa ∧
      alsaDevice.ChannelAftertouch alsa channel a = alsa ∧
      alsaDevice.PitchBend alsa channel amount = alsa ∧
      alsaDevice.ChannelMode alsa channel a = alsa) := by
  refine ⟨?_, ?_⟩
  · intro σ ω Write oss channel a b amount hout
    simp [ossDevice.NoteOn, ossDevice.NoteOff, ossDevice.KeyAftertouch,
      ossDevice.ControllerChange, ossDevice.ProgramChange, ossDevice.ChannelAftertouch,
      ossDevice.PitchBend, ossDevice.ChannelMode, hout]
  · intro σ ω wr alsa channel a b amount hopen
    simp [alsaDevice.NoteOn, alsaDevice.NoteOff, alsaDevice.KeyAftertouch,
      alsaDevice.ControllerChange, alsaDevice.ProgramChange, alsaDevice.ChannelAftertouch,
      alsaDevice.PitchBend, alsaDevice.ChannelMode, hopen]

/-- C8 at NoteOn(1, 60, 127): an OSS device with a nil output, and an ALSA
device whose output flag is false while its handle points at a pipe; both come
back unchanged, the pipe still empty. -/
theorem sends_without_output_are_noops_witness :
    ossDevice.NoteOn Pipe.write
        (⟨"/dev/snd/midiC0D0", some ⟨[], []⟩, none⟩ : ossDevice Pipe Pipe) 1 60 127 =
      ⟨"/dev/snd/midiC0D0", some ⟨[], []⟩, none⟩ ∧
    alsaDevice.NoteOn Pipe.rawWrite
        (⟨none, some ⟨[], []⟩, "hw:1,0", "UM-1", false, true, false, false⟩ :
          alsaDevice Pipe Pipe) 1 60 127 =
      ⟨none, some ⟨[], []⟩, "hw:1,0", "UM-1", false, true, false, false⟩ :=
  ⟨(sends_without_output_are_noops.1 Pipe Pipe Pipe.write
      ⟨"/dev/snd/midiC0D0", some ⟨[], []⟩, none⟩ 1 60 127 0 rfl).1,
    (sends_without_output_are_noops.2 Pipe Pipe Pipe.rawWrite
      ⟨none, some ⟨[], []⟩, "hw:1,0", "UM-1", false, true, false, false⟩ 1 60 127 0 rfl).1⟩

/-! ## Claims on the receive guard and on the decoded fields -/

/-- OSS: what Receive does on an open input, read by read. -/
theorem oss_receive_open {σ ω : Type} (Read : σ → Nat → ReadOutcome × σ)
    (oss : ossDevice σ ω) (msg : Message) (f f1 : σ) (r1 : ReadOutcome)
    (hin : oss.input = some f) (hr1 : Read f 1 = (r1, f1)) :
    (∀ e, r1.err = some e →
      ossDevice.Receive Read oss msg = ⟨some e, { oss with input := some f1 }, msg⟩) ∧
    (r1.err = none → ∀ status, status = byteAt (fillBuf 1 r1.bytes) 0 →
      (∀ k r2 f2, specDataLength ((status >>> 4) &&& 0xF) = some k → Read f1 k = (r2, f2) →
        (ossDevice.Receive Read oss msg).dev = { oss with input := some f2 } ∧
        (ossDevice.Receive Read oss msg).err = r2.err ∧
        (r2.err = none →
          (ossDevice.Receive Read oss msg).msg.Command = (status >>> 4) &&& 0xF ∧
          (ossDevice.Receive Read oss msg).msg.Channel = status &&& 0xF ∧
          (ossDevice.Receive Read oss msg).msg.Data1 = byteAt (fillBuf k r2.bytes) 0)) ∧
      (specDataLength ((status >>> 4) &&& 0xF) = none →
        (ossDevice.Receive Read oss msg).err ≠ none ∧
        (ossDevice.Receive Read oss msg).dev = { oss with input := some f1 } ∧
        (ossDevice.Receive Read oss msg).msg = msg)) := by
  unfold ossDevice.Receive
  simp only [hin, hr1, hi_nibble_shift_mask]
  refine ⟨fun e he => by simp [he], fun he status hst => ?_⟩
  subst hst
  simp only [he]
  have hle : (byteAt (fillBuf 1 r1.bytes) 0 >>> 4) &&& 0xF ≤ 0xF := Nat.and_le_right
  generalize (byteAt (fillBuf 1 r1.bytes) 0 >>> 4) &&& 0xF = cmd at *
  interval_cases cmd <;> simp [specDataLength] <;>
    (intro k r2 f2 hk hr2
     subst hk
     obtain ⟨bytes, err⟩ := r2
     rw [hr2]
     cases err <;> simp)

/-- ALSA: what Receive does on an open input, read by read. -/
theorem alsa_receive_open {σ ω : Type} (rd : Option σ → Nat → ReadOutcome × Option σ)
    (alsa : alsaDevice σ ω) (msg : Message) (g1 : Option σ) (r1 : ReadOutcome)
    (hin : alsa.inputOpen = true) (hr1 : rd alsa.inputDevice 1 = (r1, g1)) :
    (∀ e, r1.err = some e →
      alsaDevice.Receive rd alsa msg = ⟨some e, { alsa with inputDevice := g1 }, msg⟩) ∧
    (r1.err = none → ∀ status, status = byteAt (fillBuf 1 r1.bytes) 0 →
      (∀ k r2 g2, specDataLength ((status >>> 4) &&& 0xF) = some k → rd g1 k = (r2, g2) →
        (alsaDevice.Receive rd alsa msg).dev = { alsa with inputDevice := g2 } ∧
        (alsaDevice.Receive rd alsa msg).err = r2.err ∧
        (r2.err = none →
          (alsaDevice.Receive rd alsa msg).msg.Command = (status >>> 4) &&& 0xF ∧
          (alsaDevice.Receive rd alsa msg).msg.Channel = status &&& 0xF ∧
          (alsaDevice.Receive rd alsa msg).msg.Data1 = byteAt (fillBuf k r2.bytes) 0)) ∧
      (specDataLength ((status >>> 4) &&& 0xF) = none →
        (alsaDevice.Receive rd alsa msg).err ≠ none ∧
        (alsaDevice.Receive rd alsa msg).dev = { alsa with inputDevice := g1 } ∧
        (alsaDevice.Receive rd alsa msg).msg = msg)) := by
  unfold alsaDevice.Receive
  simp only [hin, hr1, hi_nibble_shift_mask, Bool.not_true, Bool.false_eq_true, if_false]
  refine ⟨fun e he => by simp [he], fun he status hst => ?_⟩
  subst hst
  simp only [he]
  have hle : (byteAt (fillBuf 1 r1.bytes) 0 >>> 4) &&& 0xF ≤ 0xF := Nat.and_le_right
  generalize (byteAt (fillBuf 1 r1.bytes) 0 >>> 4) &&& 0xF = cmd at *
  interval_cases cmd <;> simp [specDataLength] <;>
    (intro k r2 g2 hk hr2
     subst hk
     obtain ⟨bytes, err⟩ := r2
     rw [hr2]
     cases err <;> simp)

/-- OSS: a successful Receive leaves a command in 0x8..0xF and a channel in
0..15. -/
theorem oss_receive_success_range {σ ω : Type} (Read : σ → Nat → ReadOutcome × σ)
    (oss : ossDevice σ ω) (msg : Message)
    (hok : (ossDevice.Receive Read oss msg).err = none) :
    0x8 ≤ (ossDevice.Receive Read oss msg).msg.Command ∧
    (ossDevice.Receive Read oss msg).msg.Command ≤ 0xF ∧
    (ossDevice.Receive Read oss msg).msg.Channel ≤ 15 := by
  unfold ossDevice.Receive at hok ⊢
  cases hin : oss.input with
  | none => simp [hin] at hok
  | some f =>
    simp only [hin] at hok ⊢
    cases he : (Read f 1).1.err with
    | some e => simp [he] at hok
    | none =>
      simp only [he] at hok ⊢
      have hle := hi_nibble_le (byteAt (fillBuf 1 (Read f 1).1.bytes) 0)
      have hch := lo_nibble_le (byteAt (fillBuf 1 (Read f 1).1.bytes) 0)
      generalize (byteAt (fillBuf 1 (Read f 1).1.bytes) 0 &&& 0xF0) >>> 4 = cmd at *
      interval_cases cmd <;> simp at hok ⊢ <;> (split at hok <;> simp_all)

/-- ALSA: a successful Receive leaves a command in 0x8..0xF and a channel in
0..15. -/
theorem alsa_receive_success_range {σ ω : Type}
    (rd : Option σ → Nat → ReadOutcome × Option σ)
    (alsa : alsaDevice σ ω) (msg : Message)
    (hok : (alsaDevice.Receive rd alsa msg).err = none) :
    0x8 ≤ (alsaDevice.Receive rd alsa msg).msg.Command ∧
    (alsaDevice.Receive rd alsa msg).msg.Command ≤ 0xF ∧
    (alsaDevice.Receive rd alsa msg).msg.Channel ≤ 15 := by
  unfold alsaDevice.Receive at hok ⊢
  cases hin : alsa.inputOpen with
  | false => simp [hin] at hok
  | true =>
    simp only [hin, Bool.not_true, Bool.false_eq_true, if_false] at hok ⊢
    cases he : (rd alsa.inputDevice 1).1.err with
    | some e => simp [he] at hok
    | none =>
      simp only [he] at hok ⊢
      have hle := hi_nibble_le (byteAt (fillBuf 1 (rd alsa.inputDevice 1).1.bytes) 0)
      have hch := lo_nibble_le (byteAt (fillBuf 1 (rd alsa.inputDevice 1).1.bytes) 0)
      generalize
        (byteAt (fillBuf 1 (rd alsa.inputDevice 1).1.bytes) 0 &&& 0xF0) >>> 4 = cmd at *
      interval_cases cmd <;> simp at hok ⊢ <;> (split at hok <;> simp_all)

/-- C9. For every device whose input side is not open (OSS: nil input file;
ALSA: inputOpen false), Receive returns an error, the device with its handles
is returned as it was, so no read reached the transport, and the Message is
the one passed in. When the input side is open, Receive runs the decode on the
transport: it makes the status read of 1 byte and returns that read's error if
it reports one; otherwise it takes command = (status >> 4) & 0xF and, by the
specification's dispatch table, either makes one data read of the 2 or 1 bytes
the table gives, returning that read's error or success with Command, Channel
= status & 0xF and Data1 = the first data byte, or, where the table gives no
length (0xF and 0..7), fails after the status read with the Message
untouched. Holds for every transport, on OSS and on ALSA. -/
theorem receive_guard (msg : Message) :
    (∀ (σ ω : Type) (Read : σ → Nat → ReadOutcome × σ) (oss : ossDevice σ ω),
      (oss.input = none →
        ossDevice.Receive Read oss msg = ⟨some "Device not open for input.", oss, msg⟩) ∧
      (∀ (f f1 : σ) (r1 : ReadOutcome), oss.input = some f → Read f 1 = (r1, f1) →
        (∀ e, r1.err = some e →
          ossDevice.Receive Read oss msg = ⟨some e, { oss with input := some f1 }, msg⟩) ∧
        (r1.err = none → ∀ status, status = byteAt (fillBuf 1 r1.bytes) 0 →
          (∀ k r2 f2, specDataLength ((status >>> 4) &&& 0xF) = some k →
            Read f1 k = (r2, f2) →
            (ossDevice.Receive Read oss msg).dev = { oss with input := some f2 } ∧
            (ossDevice.Receive Read oss msg).err = r2.err ∧
            (r2.err = none →
              (ossDevice.Receive Read oss msg).msg.Command = (status >>> 4) &&& 0xF ∧
              (ossDevice.Receive Read oss msg).msg.Channel = status &&& 0xF ∧
              (ossDevice.Receive Read oss msg).msg.Data1 = byteAt (fillBuf k r2.bytes) 0)) ∧
          (specDataLength ((status >>> 4) &&& 0xF) = none →
            (ossDevice.Receive Read oss msg).err ≠ none ∧
            (ossDevice.Receive Read oss msg).dev = { oss with input := some f1 } ∧
            (ossDevice.Receive Read oss msg).msg = msg)))) ∧
    (∀ (σ ω : Type) (rd : Option σ → Nat → ReadOutcome × Option σ) (alsa : alsaDevice σ ω),
      (alsa.inputOpen = false →
        alsaDevice.Receive rd alsa msg =
          ⟨some "cannot read from a non-input device", alsa, msg⟩) ∧
      (∀ (g1 : Option σ) (r1 : ReadOutcome), alsa.inputOpen = true →
        rd alsa.inputDevice 1 = (r1, g1) →
        (∀ e, r1.err = some e →
          alsaDevice.Receive rd alsa msg = ⟨some e, { alsa with inputDevice := g1 }, msg⟩) ∧
        (r1.err = none → ∀ status, status = byteAt (fillBuf 1 r1.bytes) 0 →
          (∀ k r2 g2, specDataLength ((status >>> 4) &&& 0xF) = some k →
            rd g1 k = (r2, g2) →
            (alsaDevice.Receive rd alsa msg).dev = { alsa with inputDevice := g2 } ∧
            (alsaDevice.Receive rd alsa msg).err = r2.err ∧
            (r2.err = none →
              (alsaDevice.Receive rd alsa msg).msg.Command = (status >>> 4) &&& 0xF ∧
              (alsaDevice.Receive rd alsa msg).msg.Channel = status &&& 0xF ∧
              (alsaDevice.Receive rd alsa msg).msg.Data1 = byteAt (fillBuf k r2.bytes) 0)) ∧
          (specDataLength ((status >>> 4) &&& 0xF) = none →
            (alsaDevice.Receive rd alsa msg).err ≠ none ∧
            (alsaDevice.Receive rd alsa msg).dev = { alsa with inputDevice := g1 } ∧
            (alsaDevice.Receive rd alsa msg).msg = msg)))) := by
  refine ⟨fun σ ω Read oss => ⟨fun hin => ?_, fun f f1 r1 hin hr1 => ?_⟩,
    fun σ ω rd alsa => ⟨fun hin => ?_, fun g1 r1 hin hr1 => ?_⟩⟩
  · simp [ossDevice.Receive, hin]
  · exact oss_receive_open Read oss msg f f1 r1 hin hr1
  · simp [alsaDevice.Receive, hin]
  · exact alsa_receive_open rd alsa msg g1 r1 hin hr1

/-- C9 at devices that are not open for input: an OSS device with a nil input
file, and an ALSA device whose inputOpen flag is false while three bytes wait
on its handle. Both calls return the error; the ALSA pipe still holds its
three bytes and records no read; the Message is unchanged. On an OSS device
open on the bytes [0xC2, 0x05] the decode runs: command 0xC, channel 2,
data1 5. -/
theorem receive_guard_witness :
    ossDevice.Receive Pipe.read
        (⟨"/dev/snd/midiC0D0", none, none⟩ : ossDevice Pipe Pipe) ⟨0x9, 1, 60, 127, []⟩ =
      ⟨some "Device not open for input.", ⟨"/dev/snd/midiC0D0", none, none⟩,
        ⟨0x9, 1, 60, 127, []⟩⟩ ∧
    alsaDevice.Receive Pipe.rawRead
        (⟨some ⟨[0x80, 0x3C, 0x00], []⟩, none, "hw:1,0", "UM-1", true, false, false, false⟩ :
          alsaDevice Pipe Pipe)
        ⟨0x9, 1, 60, 127, []⟩ =
      ⟨some "cannot read from a non-input device",
        ⟨some ⟨[0x80, 0x3C, 0x00], []⟩, none, "hw:1,0", "UM-1", true, false, false, false⟩,
        ⟨0x9, 1, 60, 127, []⟩⟩ ∧
    ((ossDevice.Receive Pipe.read
        (⟨"/dev/snd/midiC0D0", some ⟨[0xC2, 0x05], []⟩, none⟩ : ossDevice Pipe Pipe)
        ⟨0x9, 1, 60, 127, []⟩).msg.Command = 0xC ∧
      (ossDevice.Receive Pipe.read
        (⟨"/dev/snd/midiC0D0", some ⟨[0xC2, 0x05], []⟩, none⟩ : ossDevice Pipe Pipe)
        ⟨0x9, 1, 60, 127, []⟩).msg.Channel = 2 ∧
      (ossDevice.Receive Pipe.read
        (⟨"/dev/snd/midiC0D0", some ⟨[0xC2, 0x05], []⟩, none⟩ : ossDevice Pipe Pipe)
        ⟨0x9, 1, 60, 127, []⟩).msg.Data1 = 5) :=
  ⟨((receive_guard ⟨0x9, 1, 60, 127, []⟩).1 Pipe Pipe Pipe.read
      ⟨"/dev/snd/midiC0D0", none, none⟩).1 rfl,
    ((receive_guard ⟨0x9, 1, 60, 127, []⟩).2 Pipe Pipe Pipe.rawRead
      ⟨some ⟨[0x80, 0x3C, 0x00], []⟩, none, "hw:1,0", "UM-1", true, false, false,
        false⟩).1 rfl,
    ((((((receive_guard ⟨0x9, 1, 60, 127, []⟩).1 Pipe Pipe Pipe.read
      ⟨"/dev/snd/midiC0D0", some ⟨[0xC2, 0x05], []⟩, none⟩).2 ⟨[0xC2, 0x05], []⟩
      ⟨[0x05], [1]⟩ ⟨[0xC2], none⟩ rfl rfl).2 rfl 0xC2 rfl).1 1 ⟨[0x05], none⟩
      ⟨[], [1, 1]⟩ rfl rfl).2.2 rfl)⟩

/-- C10. Message invariant: for every transport (so for every byte stream),
every device and every initial Message, whenever Receive returns success the
resulting Message has Command in 0x8..0xF and Channel in 0..15. Holds for the
OSS and for the ALSA device. -/
theorem receive_success_command_channel_range :
    (∀ (σ ω : Type) (Read : σ → Nat → ReadOutcome × σ) (oss : ossDevice σ ω)
      (msg : Message),
      (ossDevice.Receive Read oss msg).err = none →
      0x8 ≤ (ossDevice.Receive Read oss msg).msg.Command ∧
      (ossDevice.Receive Read oss msg).msg.Command ≤ 0xF ∧
      (ossDevice.Receive Read oss msg).msg.Channel ≤ 15) ∧
    (∀ (σ ω : Type) (rd : Option σ → Nat → ReadOutcome × Option σ) (alsa : alsaDevice σ ω)
      (msg : Message),
      (alsaDevice.Receive rd alsa msg).err = none →
      0x8 ≤ (alsaDevice.Receive rd alsa msg).msg.Command ∧
      (alsaDevice.Receive rd alsa msg).msg.Command ≤ 0xF ∧
      (alsaDevice.Receive rd alsa msg).msg.Channel ≤ 15) :=
  ⟨fun _ _ Read oss msg hok => oss_receive_success_range Read oss msg hok,
    fun _ _ rd alsa msg hok => alsa_receive_success_range rd alsa msg hok⟩

/-- C10 at the bytes [0xE3, 0x00, 0x40] read into a Message whose Command and
Channel were out of range before the call: Receive succeeds and the fields are
in range afterwards. -/
theorem receive_success_command_channel_range_witness :
    (0x8 ≤ (ossDevice.Receive Pipe.read
        (⟨"/dev/snd/midiC0D0", some ⟨[0xE3, 0x00, 0x40], []⟩, none⟩ : ossDevice Pipe Pipe)
        ⟨0, 200, 0, 0, []⟩).msg.Command ∧
      (ossDevice.Receive Pipe.read
        (⟨"/dev/snd/midiC0D0", some ⟨[0xE3, 0x00, 0x40], []⟩, none⟩ : ossDevice Pipe Pipe)
        ⟨0, 200, 0, 0, []⟩).msg.Command ≤ 0xF ∧
      (ossDevice.Receive Pipe.read
        (⟨"/dev/snd/midiC0D0", some ⟨[0xE3, 0x00, 0x40], []⟩, none⟩ : ossDevice Pipe Pipe)
        ⟨0, 200, 0, 0, []⟩).msg.Channel ≤ 15) ∧
    (0x8 ≤ (alsaDevice.Receive Pipe.rawRead
        (⟨some ⟨[0xE3, 0x00, 0x40], []⟩, none, "hw:1,0", "UM-1", true, false, true, false⟩ :
          alsaDevice Pipe Pipe)
        ⟨0, 200, 0, 0, []⟩).msg.Command ∧
      (alsaDevice.Receive Pipe.rawRead
        (⟨some ⟨[0xE3, 0x00, 0x40], []⟩, none, "hw:1,0", "UM-1", true, false, true, false⟩ :
          alsaDevice Pipe Pipe)
        ⟨0, 200, 0, 0, []⟩).msg.Command ≤ 0xF ∧
      (alsaDevice.Receive Pipe.rawRead
        (⟨some ⟨[0xE3, 0x00, 0x40], []⟩, none, "hw:1,0", "UM-1", true, false, true, false⟩ :
          alsaDevice Pipe Pipe)
        ⟨0, 200, 0, 0, []⟩).msg.Channel ≤ 15) :=
  ⟨receive_success_command_channel_range.1 Pipe Pipe Pipe.read
      ⟨"/dev/snd/midiC0D0", some ⟨[0xE3, 0x00, 0x40], []⟩, none⟩ ⟨0, 200, 0, 0, []⟩ rfl,
    receive_success_command_channel_range.2 Pipe Pipe Pipe.rawRead
      ⟨some ⟨[0xE3, 0x00, 0x40], []⟩, none, "hw:1,0", "UM-1", true, false, true, false⟩
      ⟨0, 200, 0, 0, []⟩ rfl⟩

/-! ## Claims on the device lifecycle and the registry -/

/-- C11. For a device with only its input side open whose underlying handle
closes without error, Close returns success, clears the input-open state
(OSS: the input file pointer becomes nil; ALSA: inputOpen false and the
pointer nil) and leaves the output side not open. A second Close on the
resulting state returns success and leaves the state unchanged whatever the
native close functions would do, also when they would fail, so no native
close is performed. Holds for the OSS and for the ALSA device. -/
theorem close_input_only_then_idempotent :
    (∀ (σ ω : Type) (CloseIn : σ → Option String × σ) (CloseOut : ω → Option String × ω)
      (oss : ossDevice σ ω) (f f1 : σ),
      oss.input = some f → oss.output = none → CloseIn f = (none, f1) →
      ossDevice.Close CloseIn CloseOut oss = ⟨none, { oss with input := none }⟩ ∧
      (ossDevice.Close CloseIn CloseOut oss).dev.input = none ∧
      (ossDevice.Close CloseIn CloseOut oss).dev.output = none ∧
      ∀ (CloseIn2 : σ → Option String × σ) (CloseOut2 : ω → Option String × ω),
        ossDevice.Close CloseIn2 CloseOut2 (ossDevice.Close CloseIn CloseOut oss).dev =
          ⟨none, (ossDevice.Close CloseIn CloseOut oss).dev⟩) ∧
    (∀ (σ ω : Type) (closeIn : Option σ → Int × Option σ)
      (closeOut : Option ω → Int × Option ω) (alsa : alsaDevice σ ω) (h1 : Option σ),
      alsa.inputOpen = true → alsa.outputOpen = false → closeIn alsa.inputDevice = (0, h1) →
      alsaDevice.Close closeIn closeOut alsa =
        ⟨none, { alsa with inputDevice := none, inputOpen := false }⟩ ∧
      (alsaDevice.Close closeIn closeOut alsa).dev.inputOpen = false ∧
      (alsaDevice.Close closeIn closeOut alsa).dev.outputOpen = false ∧
      ∀ (closeIn2 : Option σ → Int × Option σ) (closeOut2 : Option ω → Int × Option ω),
        alsaDevice.Close closeIn2 closeOut2 (alsaDevice.Close closeIn closeOut alsa).dev =
          ⟨none, (alsaDevice.Close closeIn closeOut alsa).dev⟩) := by
  refine ⟨?_, ?_⟩
  · intro σ ω CloseIn CloseOut oss f f1 hin hout hc
    have h : ossDevice.Close CloseIn CloseOut oss = ⟨none, { oss with input := none }⟩ := by
      simp [ossDevice.Close, hin, hout, hc]
    rw [h]
    refine ⟨rfl, rfl, hout, fun CloseIn2 CloseOut2 => ?_⟩
    simp [ossDevice.Close, hout]
  · intro σ ω closeIn closeOut alsa h1 hin hout hc
    have h : alsaDevice.Close closeIn closeOut alsa =
        ⟨none, { alsa with inputDevice := none, inputOpen := false }⟩ := by
      simp [alsaDevice.Close, hin, hout, hc]
    rw [h]
    refine ⟨rfl, rfl, hout, fun closeIn2 closeOut2 => ?_⟩
    simp [alsaDevice.Close, hout]

/-- C11 at devices open for input only. The first Close uses native closes
that succeed; the second Close is given native closes that always fail and
still returns success, with the state as the first Close left it. -/
theorem close_input_only_then_idempotent_witness :
    (ossDevice.Close (fun p : Pipe => (none, p)) (fun p : Pipe => (none, p))
        ⟨"/dev/snd/midiC0D0", some ⟨[], []⟩, none⟩).err = none ∧
    (ossDevice.Close (fun p : Pipe => (none, p)) (fun p : Pipe => (none, p))
        ⟨"/dev/snd/midiC0D0", some ⟨[], []⟩, none⟩).dev.input = none ∧
    (ossDevice.Close (fun p : Pipe => (some "EIO", p)) (fun p : Pipe => (some "EIO", p))
        (ossDevice.Close (fun p : Pipe => (none, p)) (fun p : Pipe => (none, p))
          ⟨"/dev/snd/midiC0D0", some ⟨[], []⟩, none⟩).dev).err = none ∧
    (alsaDevice.Close (fun h : Option Pipe => (0, h)) (fun h : Option Pipe => (0, h))
        ⟨some ⟨[], []⟩, none, "hw:1,0", "UM-1", true, false, true, false⟩).err = none ∧
    (alsaDevice.Close (fun h : Option Pipe => (0, h)) (fun h : Option Pipe => (0, h))
        ⟨some ⟨[], []⟩, none, "hw:1,0", "UM-1", true, false, true, false⟩).dev.inputOpen =
      false ∧
    (alsaDevice.Close (fun h : Option Pipe => (-1, h)) (fun h : Option Pipe => (-1, h))
        (alsaDevice.Close (fun h : Option Pipe => (0, h)) (fun h : Option Pipe => (0, h))
          ⟨some ⟨[], []⟩, none, "hw:1,0", "UM-1", true, false, true, false⟩).dev).err =
      none :=
  ⟨congrArg Returned.err (close_input_only_then_idempotent.1 Pipe Pipe
      (fun p => (none, p)) (fun p => (none, p)) ⟨"/dev/snd/midiC0D0", some ⟨[], []⟩, none⟩
      ⟨[], []⟩ ⟨[], []⟩ rfl rfl rfl).1,
    (close_input_only_then_idempotent.1 Pipe Pipe
      (fun p => (none, p)) (fun p => (none, p)) ⟨"/dev/snd/midiC0D0", some ⟨[], []⟩, none⟩
      ⟨[], []⟩ ⟨[], []⟩ rfl rfl rfl).2.1,
    congrArg Returned.err ((close_input_only_then_idempotent.1 Pipe Pipe
      (fun p => (none, p)) (fun p => (none, p)) ⟨"/dev/snd/midiC0D0", some ⟨[], []⟩, none⟩
      ⟨[], []⟩ ⟨[], []⟩ rfl rfl rfl).2.2.2 (fun p => (some "EIO", p))
      (fun p => (some "EIO", p))),
    congrArg Returned.err (close_input_only_then_idempotent.2 Pipe Pipe
      (fun h => (0, h)) (fun h => (0, h))
      ⟨some ⟨[], []⟩, none, "hw:1,0", "UM-1", true, false, true, false⟩ (some ⟨[], []⟩)
      rfl rfl rfl).1,
    (close_input_only_then_idempotent.2 Pipe Pipe
      (fun h => (0, h)) (fun h => (0, h))
      ⟨some ⟨[], []⟩, none, "hw:1,0", "UM-1", true, false, true, false⟩ (some ⟨[], []⟩)
      rfl rfl rfl).2.1,
    congrArg Returned.err ((close_input_only_then_idempotent.2 Pipe Pipe
      (fun h => (0, h)) (fun h => (0, h))
      ⟨some ⟨[], []⟩, none, "hw:1,0", "UM-1", true, false, true, false⟩ (some ⟨[], []⟩)
      rfl rfl rfl).2.2.2 (fun h => (-1, h)) (fun h => (-1, h)))⟩

/-- C12 on the code: a device with both sides open whose input close fails
while the output close would succeed. Close returns the input error at once:
the output close is never made, the output side stays open (ALSA: outputOpen
true and the pointer set; OSS: the output file pointer set) although its close
would have succeeded. When the roles are swapped (input close succeeds, output
close fails) the input side is cleared and the error returned. -/
theorem close_stops_at_failed_input_close :
    ((alsaDevice.Close (fun h : Option Pipe => (-1, h)) (fun _ : Option Pipe => (0, none))
        ⟨some ⟨[], []⟩, some ⟨[], []⟩, "hw:1,0", "UM-1", true, true, true, true⟩).err =
      some "Error closing ALSA MIDI input device UM-1 (hw:1,0)." ∧
    (alsaDevice.Close (fun h : Option Pipe => (-1, h)) (fun _ : Option Pipe => (0, none))
        ⟨some ⟨[], []⟩, some ⟨[], []⟩, "hw:1,0", "UM-1", true, true, true, true⟩).dev.outputOpen =
      true ∧
    (alsaDevice.Close (fun h : Option Pipe => (-1, h)) (fun _ : Option Pipe => (0, none))
        ⟨some ⟨[], []⟩, some ⟨[], []⟩, "hw:1,0", "UM-1", true, true, true,
          true⟩).dev.outputDevice = some ⟨[], []⟩) ∧
    ((ossDevice.Close (fun p : Pipe => (some "EIO", p)) (fun p : Pipe => (none, p))
        ⟨"/dev/snd/midiC0D0", some ⟨[], []⟩, some ⟨[], []⟩⟩).err =
      some "Error closing OSS MIDI device: EIO" ∧
    (ossDevice.Close (fun p : Pipe => (some "EIO", p)) (fun p : Pipe => (none, p))
        ⟨"/dev/snd/midiC0D0", some ⟨[], []⟩, some ⟨[], []⟩⟩).dev.output = some ⟨[], []⟩) ∧
    ((alsaDevice.Close (fun _ : Option Pipe => (0, none)) (fun h : Option Pipe => (-1, h))
        ⟨some ⟨[], []⟩, some ⟨[], []⟩, "hw:1,0", "UM-1", true, true, true, true⟩).err =
      some "Error closing ALSA MIDI output device UM-1 (hw:1,0)." ∧
    (alsaDevice.Close (fun _ : Option Pipe => (0, none)) (fun h : Option Pipe => (-1, h))
        ⟨some ⟨[], []⟩, some ⟨[], []⟩, "hw:1,0", "UM-1", true, true, true, true⟩).dev.inputOpen =
      false) := by
  decide

/-- C13. For every ALSA device: when isInput is false, OpenInput returns an
error and the device as it was, for every native open function, so no native
open call is made and both open flags are unchanged. When isInput is true and
the native open fails (return code not 0), it returns an error and leaves
inputOpen, outputOpen, isInput and isOutput unchanged; when the native open
returns 0 it returns success with inputOpen = true and outputOpen, isInput,
isOutput unchanged. OpenOutput mirrors this for isOutput / outputOpen. Hence
an open flag that is true after an open call was true before it or the call
succeeded. -/
theorem open_sets_flag_only_on_success :
    (∀ (σ ω : Type) (nativeOpen : Option σ → String → Int × Option σ) (alsa : alsaDevice σ ω),
      (alsa.isInput = false →
        alsaDevice.OpenInput nativeOpen alsa =
          ⟨some ("ALSA device " ++ alsa.Name ++
            " is not an input device and cannot be opened for input."), alsa⟩) ∧
      (alsa.isInput = true → ∀ (rc : Int) (h : Option σ),
        nativeOpen alsa.inputDevice alsa.deviceName = (rc, h) →
        (rc ≠ 0 →
          alsaDevice.OpenInput nativeOpen alsa =
            ⟨some ("Error opening ALSA MIDI device " ++ alsa.Name ++ " for input."),
              { alsa with inputDevice := h }⟩) ∧
        (rc = 0 →
          alsaDevice.OpenInput nativeOpen alsa =
            ⟨none, { alsa with inputDevice := h, inputOpen := true }⟩)) ∧
      ((alsaDevice.OpenInput nativeOpen alsa).dev.inputOpen = true →
        alsa.inputOpen = true ∨ (alsaDevice.OpenInput nativeOpen alsa).err = none) ∧
      (alsaDevice.OpenInput nativeOpen alsa).dev.outputOpen = alsa.outputOpen ∧
      (alsaDevice.OpenInput nativeOpen alsa).dev.isInput = alsa.isInput ∧
      (alsaDevice.OpenInput nativeOpen alsa).dev.isOutput = alsa.isOutput) ∧
    (∀ (σ ω : Type) (nativeOpen : Option ω → String → Int × Option ω) (alsa : alsaDevice σ ω),
      (alsa.isOutput = false →
        alsaDevice.OpenOutput nativeOpen alsa =
          ⟨some ("ALSA device " ++ alsa.Name ++
            " is not an output device and cannot be opened for output."), alsa⟩) ∧
      (alsa.isOutput = true → ∀ (rc : Int) (h : Option ω),
        nativeOpen alsa.outputDevice alsa.deviceName = (rc, h) →
        (rc ≠ 0 →
          alsaDevice.OpenOutput nativeOpen alsa =
            ⟨some ("Error opening ALSA MIDI device " ++ alsa.Name ++ " for output."),
              { alsa with outputDevice := h }⟩) ∧
        (rc = 0 →
          alsaDevice.OpenOutput nativeOpen alsa =
            ⟨none, { alsa with outputDevice := h, outputOpen := true }⟩)) ∧
      ((alsaDevice.OpenOutput nativeOpen alsa).dev.outputOpen = true →
        alsa.outputOpen = true ∨ (alsaDevice.OpenOutput nativeOpen alsa).err = none) ∧
      (alsaDevice.OpenOutput nativeOpen alsa).dev.inputOpen = alsa.inputOpen ∧
      (alsaDevice.OpenOutput nativeOpen alsa).dev.isInput = alsa.isInput ∧
      (alsaDevice.OpenOutput nativeOpen alsa).dev.isOutput = alsa.isOutput) := by
  refine ⟨?_, ?_⟩
  · intro σ ω nativeOpen alsa
    refine ⟨fun hcap => ?_, fun hcap rc h hn => ⟨fun hrc => ?_, fun hrc => ?_⟩, ?_, ?_, ?_, ?_⟩
    · simp [alsaDevice.OpenInput, alsaDevice.IsInput, hcap]
    · simp [alsaDevice.OpenInput, alsaDevice.IsInput, hcap, hn, hrc]
    · simp [alsaDevice.OpenInput, alsaDevice.IsInput, hcap, hn, hrc]
    all_goals
      unfold alsaDevice.OpenInput
      simp only [alsaDevice.IsInput]
      split <;> [skip; split] <;> simp_all
  · intro σ ω nativeOpen alsa
    refine ⟨fun hcap => ?_, fun hcap rc h hn => ⟨fun hrc => ?_, fun hrc => ?_⟩, ?_, ?_, ?_, ?_⟩
    · simp [alsaDevice.OpenOutput, alsaDevice.IsOutput, hcap]
    · simp [alsaDevice.OpenOutput, alsaDevice.IsOutput, hcap, hn, hrc]
    · simp [alsaDevice.OpenOutput, alsaDevice.IsOutput, hcap, hn, hrc]
    all_goals
      unfold alsaDevice.OpenOutput
      simp only [alsaDevice.IsOutput]
      split <;> [skip; split] <;> simp_all

/-- C13 at three devices. An output-only device: OpenInput fails and returns
the device as it was although the native open would succeed. An input device
whose native open returns -2: error, inputOpen still false. An input device
whose native open returns 0: success, inputOpen true, outputOpen unchanged. -/
theorem open_sets_flag_only_on_success_witness :
    alsaDevice.OpenInput (fun (_ : Option Pipe) (_ : String) => (0, some ⟨[], []⟩))
        (⟨none, none, "hw:1,0", "UM-1", false, true, false, false⟩ : alsaDevice Pipe Pipe) =
      ⟨some "ALSA device UM-1 (hw:1,0) is not an input device and cannot be opened for input.",
        ⟨none, none, "hw:1,0", "UM-1", false, true, false, false⟩⟩ ∧
    alsaDevice.OpenInput (fun (_ : Option Pipe) (_ : String) => (-2, none))
        (⟨none, none, "hw:1,0", "UM-1", true, true, false, false⟩ : alsaDevice Pipe Pipe) =
      ⟨some "Error opening ALSA MIDI device UM-1 (hw:1,0) for input.",
        ⟨none, none, "hw:1,0", "UM-1", true, true, false, false⟩⟩ ∧
    alsaDevice.OpenInput (fun (_ : Option Pipe) (_ : String) => (0, some ⟨[], []⟩))
        (⟨none, none, "hw:1,0", "UM-1", true, true, false, false⟩ : alsaDevice Pipe Pipe) =
      ⟨none, ⟨some ⟨[], []⟩, none, "hw:1,0", "UM-1", true, true, true, false⟩⟩ :=
  ⟨(open_sets_flag_only_on_success.1 Pipe Pipe (fun _ _ => (0, some ⟨[], []⟩))
      ⟨none, none, "hw:1,0", "UM-1", false, true, false, false⟩).1 rfl,
    ((open_sets_flag_only_on_success.1 Pipe Pipe (fun _ _ => (-2, none))
      ⟨none, none, "hw:1,0", "UM-1", true, true, false, false⟩).2.1 rfl (-2) none rfl).1
      (by decide),
    ((open_sets_flag_only_on_success.1 Pipe Pipe (fun _ _ => (0, some ⟨[], []⟩))
      ⟨none, none, "hw:1,0", "UM-1", true, true, false, false⟩).2.1 rfl 0
      (some ⟨[], []⟩) rfl).2 rfl⟩

/-- The driver name is part of the text of the error GetDevices builds. -/
theorem driver_in_message (driver : String) :
    driver.data <:+: ("Unrecognized MIDI driver \x27" ++ driver ++ "\x27.").data :=
  ⟨"Unrecognized MIDI driver \x27".data, "\x27.".data, by simp⟩

/-- C14. For every driver string other than the recognized identifiers "oss"
and "alsa", GetDevices returns no device list (nil) and the error
"Unrecognized MIDI driver '<driver>'.", whose text contains the unrecognized
string, and leaves the host as it was for every pair of discovery functions,
so no backend discovery is invoked; for "oss" and "alsa" it returns exactly
what ListAllOssDevices and ListAllAlsaDevices return. -/
theorem getDevices_dispatch {δ W : Type}
    (ListAllOssDevices ListAllAlsaDevices : W → (Option (List δ) × Option String) × W)
    (w : W) :
    GetDevices ListAllOssDevices ListAllAlsaDevices "oss" w = ListAllOssDevices w ∧
    GetDevices ListAllOssDevices ListAllAlsaDevices "alsa" w = ListAllAlsaDevices w ∧
    ∀ driver : String, driver ≠ "oss" → driver ≠ "alsa" →
      GetDevices ListAllOssDevices ListAllAlsaDevices driver w =
        ((none, some ("Unrecognized MIDI driver \x27" ++ driver ++ "\x27.")), w) ∧
      driver.data <:+: ("Unrecognized MIDI driver \x27" ++ driver ++ "\x27.").data := by
  refine ⟨rfl, rfl, fun driver h1 h2 => ⟨?_, driver_in_message driver⟩⟩
  unfold GetDevices
  split
  · exact absurd rfl h1
  · exact absurd rfl h2
  · rfl

/-- C14 at the driver "jack", with discovery functions that would each change
the host: the host is unchanged, the list is nil and the error names "jack". -/
theorem getDevices_dispatch_witness :
    GetDevices (fun w : Nat => ((some [1], none), w + 1))
        (fun w : Nat => ((some [2], none), w + 2)) "jack" 0 =
      ((none, some ("Unrecognized MIDI driver \x27" ++ "jack" ++ "\x27.")), 0) ∧
    "jack".data <:+: ("Unrecognized MIDI driver \x27" ++ "jack" ++ "\x27.").data :=
  (getDevices_dispatch (fun w : Nat => ((some [1], none), w + 1))
    (fun w : Nat => ((some [2], none), w + 2)) 0).2.2 "jack" (by decide) (by decide)

/-! ## Claims on the failure paths of Receive -/

/-- C15 on the code: the status read stores no byte and reports no error (the
C call returned 0 or a negative code and left errno at 0). Receive does not
look at the count: it reads the zero the buffer was declared with as status
byte, takes command 0 from it and returns "Unknown MIDI command: 0"; it makes
no data read and leaves the Message as it was. When the status read reports
an error, that error is returned after the one read. -/
theorem receive_ignores_empty_status_read :
    ((alsaDevice.Receive Script.rawRead
        (⟨some ⟨[⟨[], none⟩], []⟩, none, "hw:1,0", "UM-1", true, false, true, false⟩ :
          alsaDevice Script Pipe)
        ⟨0x9, 1, 60, 127, []⟩).err = some "Unknown MIDI command: 0" ∧
    (alsaDevice.Receive Script.rawRead
        (⟨some ⟨[⟨[], none⟩], []⟩, none, "hw:1,0", "UM-1", true, false, true, false⟩ :
          alsaDevice Script Pipe)
        ⟨0x9, 1, 60, 127, []⟩).dev.inputDevice = some ⟨[], [1]⟩ ∧
    (alsaDevice.Receive Script.rawRead
        (⟨some ⟨[⟨[], none⟩], []⟩, none, "hw:1,0", "UM-1", true, false, true, false⟩ :
          alsaDevice Script Pipe)
        ⟨0x9, 1, 60, 127, []⟩).msg = ⟨0x9, 1, 60, 127, []⟩) ∧
    ((alsaDevice.Receive Script.rawRead
        (⟨some ⟨[⟨[], some "EAGAIN"⟩], []⟩, none, "hw:1,0", "UM-1", true, false, true, false⟩ :
          alsaDevice Script Pipe)
        ⟨0x9, 1, 60, 127, []⟩).err = some "EAGAIN" ∧
    (alsaDevice.Receive Script.rawRead
        (⟨some ⟨[⟨[], some "EAGAIN"⟩], []⟩, none, "hw:1,0", "UM-1", true, false, true, false⟩ :
          alsaDevice Script Pipe)
        ⟨0x9, 1, 60, 127, []⟩).dev.inputDevice = some ⟨[], [1]⟩) := by
  decide

/-- OSS: a status byte below 0x80 runs into the final return of Receive. -/
theorem oss_receive_unknown {σ ω : Type} (Read : σ → Nat → ReadOutcome × σ)
    (oss : ossDevice σ ω) (msg : Message) (f f1 : σ) (status : Nat)
    (hs : status < 0x80) (hin : oss.input = some f)
    (hr1 : Read f 1 = (⟨[status], none⟩, f1)) :
    ossDevice.Receive Read oss msg =
      ⟨some ("Unknown MIDI command: " ++ toString (status >>> 4)),
        { oss with input := some f1 }, msg⟩ := by
  have hcmd : (byteAt (fillBuf 1 [status]) 0 &&& 0xF0) >>> 4 = status >>> 4 := by
    simp [fillBuf_one, byteAt, Nat.mod_eq_of_lt (show status < 256 by omega),
      hi_nibble_of_byte status (show status < 256 by omega)]
  have hlt : status >>> 4 < 8 := by
    rw [Nat.shiftRight_eq_div_pow]
    omega
  unfold ossDevice.Receive
  simp only [hin, hr1, hcmd]
  generalize status >>> 4 = cmd at *
  interval_cases cmd <;> rfl

/-- ALSA: a status byte below 0x80 runs into the final return of Receive. -/
theorem alsa_receive_unknown {σ ω : Type}
    (rd : Option σ → Nat → ReadOutcome × Option σ)
    (alsa : alsaDevice σ ω) (msg : Message) (g1 : Option σ) (status : Nat)
    (hs : status < 0x80) (hin : alsa.inputOpen = true)
    (hr1 : rd alsa.inputDevice 1 = (⟨[status], none⟩, g1)) :
    alsaDevice.Receive rd alsa msg =
      ⟨some ("Unknown MIDI command: " ++ toString (status >>> 4)),
        { alsa with inputDevice := g1 }, msg⟩ := by
  have hcmd : (byteAt (fillBuf 1 [status]) 0 &&& 0xF0) >>> 4 = status >>> 4 := by
    simp [fillBuf_one, byteAt, Nat.mod_eq_of_lt (show status < 256 by omega),
      hi_nibble_of_byte status (show status < 256 by omega)]
  have hlt : status >>> 4 < 8 := by
    rw [Nat.shiftRight_eq_div_pow]
    omega
  unfold alsaDevice.Receive
  simp only [hin, hr1, hcmd, Bool.not_true, Bool.false_eq_true, if_false]
  generalize status >>> 4 = cmd at *
  interval_cases cmd <;> rfl

/-- A status byte in 0x80..0xEF has a data length in the specification's
table. -/
theorem specDataLength_channel (status : Nat) (hlo : 0x80 ≤ status) (hhi : status < 0xF0) :
    ∃ k, specDataLength ((status >>> 4) &&& 0xF) = some k := by
  have h8 : 8 ≤ status >>> 4 := by
    rw [Nat.shiftRight_eq_div_pow]
    omega
  have h15 : status >>> 4 < 15 := by
    rw [Nat.shiftRight_eq_div_pow]
    omega
  generalize status >>> 4 = cmd at *
  interval_cases cmd <;> first | exact ⟨2, by decide⟩ | exact ⟨1, by decide⟩

/-- C16, as stated, fails: the status byte 0x3C has command nibble 3, which
none of the three handled classes takes, and Receive returns "Unknown MIDI
command: 3". -/
theorem receive_unknown_command_reached :
    (ossDevice.Receive Pipe.read
        (⟨"/dev/snd/midiC0D0", some ⟨[0x3C, 0x7F], []⟩, none⟩ : ossDevice Pipe Pipe)
        ⟨0, 0, 0, 0, []⟩).err = some "Unknown MIDI command: 3" ∧
    (alsaDevice.Receive Pipe.rawRead
        (⟨some ⟨[0x3C, 0x7F], []⟩, none, "hw:1,0", "UM-1", true, false, true, false⟩ :
          alsaDevice Pipe Pipe)
        ⟨0, 0, 0, 0, []⟩).err = some "Unknown MIDI command: 3" := by
  decide

/-- C16, amended. The "unknown command" failure is reached exactly by the
status bytes 0x00..0x7F. For every status byte 0x80..0xFF the command nibble
is dispatched to one of the three handled classes: either it is 0xF and
Receive returns the SysEx error, or the specification's table gives a data
length, the data read of that length is made and Receive returns what that
read reported (its error, or success). For every status byte 0x00..0x7F
(command nibble 0..7) Receive returns "Unknown MIDI command: <nibble>" right
after the status read, with no data read and the Message unchanged. Holds for
the OSS and for the ALSA device. -/
theorem unknown_command_iff_status_below_0x80 (status : Nat) (hs : status < 256)
    (msg : Message) :
    (∀ (σ ω : Type) (Read : σ → Nat → ReadOutcome × σ) (oss : ossDevice σ ω) (f f1 : σ),
      oss.input = some f → Read f 1 = (⟨[status], none⟩, f1) →
      (status < 0x80 →
        ossDevice.Receive Read oss msg =
          ⟨some ("Unknown MIDI command: " ++ toString (status >>> 4)),
            { oss with input := some f1 }, msg⟩) ∧
      (0x80 ≤ status →
        (status >>> 4 = 0xF ∧
          (ossDevice.Receive Read oss msg).err = some "no SysEx yet sorry") ∨
        (∃ k, specDataLength ((status >>> 4) &&& 0xF) = some k ∧
          (ossDevice.Receive Read oss msg).err = (Read f1 k).1.err ∧
          (ossDevice.Receive Read oss msg).dev = { oss with input := some (Read f1 k).2 }))) ∧
    (∀ (σ ω : Type) (rd : Option σ → Nat → ReadOutcome × Option σ) (alsa : alsaDevice σ ω)
      (g1 : Option σ),
      alsa.inputOpen = true → rd alsa.inputDevice 1 = (⟨[status], none⟩, g1) →
      (status < 0x80 →
        alsaDevice.Receive rd alsa msg =
          ⟨some ("Unknown MIDI command: " ++ toString (status >>> 4)),
            { alsa with inputDevice := g1 }, msg⟩) ∧
      (0x80 ≤ status →
        (status >>> 4 = 0xF ∧
          (alsaDevice.Receive rd alsa msg).err = some "no SysEx yet sorry") ∨
        (∃ k, specDataLength ((status >>> 4) &&& 0xF) = some k ∧
          (alsaDevice.Receive rd alsa msg).err = (rd g1 k).1.err ∧
          (alsaDevice.Receive rd alsa msg).dev = { alsa with inputDevice := (rd g1 k).2 }))) := by
  have hbuf : status = byteAt (fillBuf 1 [status]) 0 := by
    simp [fillBuf_one, byteAt, Nat.mod_eq_of_lt hs]
  refine ⟨?_, ?_⟩
  · intro σ ω Read oss f f1 hin hr1
    refine ⟨fun hlt => oss_receive_unknown Read oss msg f f1 status hlt hin hr1, fun hge => ?_⟩
    by_cases hF : 0xF0 ≤ status
    · have hc : status >>> 4 = 0xF := by
        rw [Nat.shiftRight_eq_div_pow]
        omega
      left
      rw [oss_receive_system Read oss msg f f1 status hs hc hin hr1]
      exact ⟨hc, rfl⟩
    · right
      obtain ⟨k, hk⟩ := specDataLength_channel status hge (by omega)
      have h := ((oss_receive_open Read oss msg f f1 ⟨[status], none⟩ hin hr1).2 rfl status
        hbuf).1 k (Read f1 k).1 (Read f1 k).2 hk rfl
      exact ⟨k, hk, h.2.1, h.1⟩
  · intro σ ω rd alsa g1 hin hr1
    refine ⟨fun hlt => alsa_receive_unknown rd alsa msg g1 status hlt hin hr1, fun hge => ?_⟩
    by_cases hF : 0xF0 ≤ status
    · have hc : status >>> 4 = 0xF := by
        rw [Nat.shiftRight_eq_div_pow]
        omega
      left
      rw [alsa_receive_system rd alsa msg g1 status hs hc hin hr1]
      exact ⟨hc, rfl⟩
    · right
      obtain ⟨k, hk⟩ := specDataLength_channel status hge (by omega)
      have h := ((alsa_receive_open rd alsa msg g1 ⟨[status], none⟩ hin hr1).2 rfl status
        hbuf).1 k (rd g1 k).1 (rd g1 k).2 hk rfl
      exact ⟨k, hk, h.2.1, h.1⟩

/-- C16 amended, at the status byte 0x7F followed by one more byte: "Unknown
MIDI command: 7" after one read of one byte; the byte that follows is still
waiting and the Message is the one passed in. -/
theorem unknown_command_iff_status_below_0x80_witness :
    ossDevice.Receive Pipe.read
        (⟨"/dev/snd/midiC0D0", some ⟨[0x7F, 0x40], []⟩, none⟩ : ossDevice Pipe Pipe)
        ⟨0x9, 1, 60, 127, []⟩ =
      ⟨some ("Unknown MIDI command: " ++ toString (0x7F >>> 4)),
        ⟨"/dev/snd/midiC0D0", some ⟨[0x40], [1]⟩, none⟩, ⟨0x9, 1, 60, 127, []⟩⟩ ∧
    alsaDevice.Receive Pipe.rawRead
        (⟨some ⟨[0x7F, 0x40], []⟩, none, "hw:1,0", "UM-1", true, false, true, false⟩ :
          alsaDevice Pipe Pipe)
        ⟨0x9, 1, 60, 127, []⟩ =
      ⟨some ("Unknown MIDI command: " ++ toString (0x7F >>> 4)),
        ⟨some ⟨[0x40], [1]⟩, none, "hw:1,0", "UM-1", true, false, true, false⟩,
        ⟨0x9, 1, 60, 127, []⟩⟩ :=
  ⟨((unknown_command_iff_status_below_0x80 0x7F (by decide) ⟨0x9, 1, 60, 127, []⟩).1
      Pipe Pipe Pipe.read ⟨"/dev/snd/midiC0D0", some ⟨[0x7F, 0x40], []⟩, none⟩
      ⟨[0x7F, 0x40], []⟩ ⟨[0x40], [1]⟩ rfl rfl).1 (by decide),
    ((unknown_command_iff_status_below_0x80 0x7F (by decide) ⟨0x9, 1, 60, 127, []⟩).2
      Pipe Pipe Pipe.rawRead
      ⟨some ⟨[0x7F, 0x40], []⟩, none, "hw:1,0", "UM-1", true, false, true, false⟩
      (some ⟨[0x40], [1]⟩) rfl rfl).1 (by decide)⟩

/-- OSS: a failed Receive leaves the Message as it was, and no Receive
touches SysEx. -/
theorem oss_receive_atomic {σ ω : Type} (Read : σ → Nat → ReadOutcome × σ)
    (oss : ossDevice σ ω) (msg : Message) :
    ((ossDevice.Receive Read oss msg).err ≠ none → (ossDevice.Receive Read oss msg).msg = msg) ∧
    (ossDevice.Receive Read oss msg).msg.SysEx = msg.SysEx := by
  unfold ossDevice.Receive
  cases hin : oss.input with
  | none => simp
  | some f =>
    simp only []
    cases he : (Read f 1).1.err with
    | some e => simp
    | none =>
      simp only []
      have hle := hi_nibble_le (byteAt (fillBuf 1 (Read f 1).1.bytes) 0)
      generalize (byteAt (fillBuf 1 (Read f 1).1.bytes) 0 &&& 0xF0) >>> 4 = cmd at *
      interval_cases cmd <;> simp <;> split <;> simp

/-- ALSA: a failed Receive leaves the Message as it was, and no Receive
touches SysEx. -/
theorem alsa_receive_atomic {σ ω : Type} (rd : Option σ → Nat → ReadOutcome × Option σ)
    (alsa : alsaDevice σ ω) (msg : Message) :
    ((alsaDevice.Receive rd alsa msg).err ≠ none →
      (alsaDevice.Receive rd alsa msg).msg = msg) ∧
    (alsaDevice.Receive rd alsa msg).msg.SysEx = msg.SysEx := by
  unfold alsaDevice.Receive
  cases hin : alsa.inputOpen with
  | false => simp
  | true =>
    simp only [Bool.not_true, Bool.false_eq_true, if_false]
    cases he : (rd alsa.inputDevice 1).1.err with
    | some e => simp
    | none =>
      simp only []
      have hle := hi_nibble_le (byteAt (fillBuf 1 (rd alsa.inputDevice 1).1.bytes) 0)
      generalize
        (byteAt (fillBuf 1 (rd alsa.inputDevice 1).1.bytes) 0 &&& 0xF0) >>> 4 = cmd at *
      interval_cases cmd <;> simp <;> split <;> simp

/-- C18. Atomicity of decode: whenever Receive returns an error, on whatever
path (input not open, status read error, data read error after the status
byte was consumed, System status 0xF, unknown command), every field of the
Message passed in is exactly what it was before the call; and on every path,
successful or not, the SysEx field is never modified. Holds for every
transport, on OSS and on ALSA. -/
theorem receive_atomic :
    (∀ (σ ω : Type) (Read : σ → Nat → ReadOutcome × σ) (oss : ossDevice σ ω)
      (msg : Message),
      ((ossDevice.Receive Read oss msg).err ≠ none →
        (ossDevice.Receive Read oss msg).msg = msg) ∧
      (ossDevice.Receive Read oss msg).msg.SysEx = msg.SysEx) ∧
    (∀ (σ ω : Type) (rd : Option σ → Nat → ReadOutcome × Option σ) (alsa : alsaDevice σ ω)
      (msg : Message),
      ((alsaDevice.Receive rd alsa msg).err ≠ none →
        (alsaDevice.Receive rd alsa msg).msg = msg) ∧
      (alsaDevice.Receive rd alsa msg).msg.SysEx = msg.SysEx) :=
  ⟨fun _ _ Read oss msg => oss_receive_atomic Read oss msg,
    fun _ _ rd alsa msg => alsa_receive_atomic rd alsa msg⟩

/-- C18 at a data read that fails after the status byte 0x90 was taken: the
Message still holds what it held, on both backends. -/
theorem receive_atomic_witness :
    (ossDevice.Receive Script.read
        (⟨"/dev/snd/midiC0D0", some ⟨[⟨[0x90], none⟩, ⟨[0x3C], some "EIO"⟩], []⟩, none⟩ :
          ossDevice Script Pipe)
        ⟨0xB, 2, 7, 100, [0xF0]⟩).msg = ⟨0xB, 2, 7, 100, [0xF0]⟩ ∧
    (alsaDevice.Receive Script.rawRead
        (⟨some ⟨[⟨[0x90], none⟩, ⟨[0x3C], some "EIO"⟩], []⟩, none, "hw:1,0", "UM-1", true,
          false, true, false⟩ : alsaDevice Script Pipe)
        ⟨0xB, 2, 7, 100, [0xF0]⟩).msg = ⟨0xB, 2, 7, 100, [0xF0]⟩ :=
  ⟨(receive_atomic.1 Script Pipe Script.read
      ⟨"/dev/snd/midiC0D0", some ⟨[⟨[0x90], none⟩, ⟨[0x3C], some "EIO"⟩], []⟩, none⟩
      ⟨0xB, 2, 7, 100, [0xF0]⟩).1 (by decide),
    (receive_atomic.2 Script Pipe Script.rawRead
      ⟨some ⟨[⟨[0x90], none⟩, ⟨[0x3C], some "EIO"⟩], []⟩, none, "hw:1,0", "UM-1", true,
        false, true, false⟩
      ⟨0xB, 2, 7, 100, [0xF0]⟩).1 (by decide)⟩

/-- With the same transport under both backends, an open OSS device and an
open ALSA device on the same handle return the same error, leave the same
Message and leave the handle in the same state. -/
theorem receive_open_agree {σ ω : Type} (Read : σ → Nat → ReadOutcome × σ)
    (rd : Option σ → Nat → ReadOutcome × Option σ)
    (hlift : ∀ s n, rd (some s) n = ((Read s n).1, some (Read s n).2))
    (oss : ossDevice σ ω) (alsa : alsaDevice σ ω) (msg : Message) (f : σ)
    (hin : oss.input = some f) (hopen : alsa.inputOpen = true)
    (hdev : alsa.inputDevice = some f) :
    (alsaDevice.Receive rd alsa msg).err = (ossDevice.Receive Read oss msg).err ∧
    (alsaDevice.Receive rd alsa msg).msg = (ossDevice.Receive Read oss msg).msg ∧
    (alsaDevice.Receive rd alsa msg).dev.inputDevice =
      (ossDevice.Receive Read oss msg).dev.input := by
  unfold alsaDevice.Receive ossDevice.Receive
  simp only [hin, hopen, hdev, hlift, Bool.not_true, Bool.false_eq_true, if_false]
  cases he : (Read f 1).1.err with
  | some e => simp
  | none =>
    simp only []
    have hle := hi_nibble_le (byteAt (fillBuf 1 (Read f 1).1.bytes) 0)
    generalize (byteAt (fillBuf 1 (Read f 1).1.bytes) 0 &&& 0xF0) >>> 4 = cmd at *
    interval_cases cmd <;> simp <;> split <;> simp

/-- C19. Backend equivalence of the decoder: for every initial Message and
every transport, given to the OSS device as `Read` and to the ALSA device as
the same function on the handle pointer (so the two see the same sequence of
read results, bytes or errors). When both input sides are open on the same
handle, alsaDevice.Receive and ossDevice.Receive return the same error
(success in the same cases), leave the Message in the same final state, and
leave the handle in the same state, so they made the same read requests.
When both input sides are not open, both fail, neither reads, and both leave
the Message as it was. -/
theorem receive_backends_agree (msg : Message) :
    ∀ (σ ω : Type) (Read : σ → Nat → ReadOutcome × σ)
      (rd : Option σ → Nat → ReadOutcome × Option σ),
      (∀ s n, rd (some s) n = ((Read s n).1, some (Read s n).2)) →
      ∀ (oss : ossDevice σ ω) (alsa : alsaDevice σ ω),
        (∀ f, oss.input = some f → alsa.inputOpen = true → alsa.inputDevice = some f →
          (alsaDevice.Receive rd alsa msg).err = (ossDevice.Receive Read oss msg).err ∧
          (alsaDevice.Receive rd alsa msg).msg = (ossDevice.Receive Read oss msg).msg ∧
          (alsaDevice.Receive rd alsa msg).dev.inputDevice =
            (ossDevice.Receive Read oss msg).dev.input) ∧
        (oss.input = none → alsa.inputOpen = false →
          (ossDevice.Receive Read oss msg).err ≠ none ∧
          (alsaDevice.Receive rd alsa msg).err ≠ none ∧
          (ossDevice.Receive Read oss msg).msg = msg ∧
          (alsaDevice.Receive rd alsa msg).msg = msg ∧
          (ossDevice.Receive Read oss msg).dev = oss ∧
          (alsaDevice.Receive rd alsa msg).dev = alsa) := by
  intro σ ω Read rd hlift oss alsa
  refine ⟨fun f hin hopen hdev =>
    receive_open_agree Read rd hlift oss alsa msg f hin hopen hdev, fun hin hopen => ?_⟩
  simp [ossDevice.Receive, alsaDevice.Receive, hin, hopen]

/-- C19 on a scripted transport whose status read delivers 0xC5 and whose
data read stores no byte and reports no error: both backends return the same
error value, the same Message and the same handle state. -/
theorem receive_backends_agree_witness :
    (alsaDevice.Receive Script.rawRead
        (⟨some ⟨[⟨[0xC5], none⟩, ⟨[], none⟩], []⟩, none, "hw:1,0", "UM-1", true, false, true,
          false⟩ : alsaDevice Script Pipe) ⟨0x9, 1, 60, 127, []⟩).err =
      (ossDevice.Receive Script.read
        (⟨"/dev/snd/midiC0D0", some ⟨[⟨[0xC5], none⟩, ⟨[], none⟩], []⟩, none⟩ :
          ossDevice Script Pipe) ⟨0x9, 1, 60, 127, []⟩).err ∧
    (alsaDevice.Receive Script.rawRead
        (⟨some ⟨[⟨[0xC5], none⟩, ⟨[], none⟩], []⟩, none, "hw:1,0", "UM-1", true, false, true,
          false⟩ : alsaDevice Script Pipe) ⟨0x9, 1, 60, 127, []⟩).msg =
      (ossDevice.Receive Script.read
        (⟨"/dev/snd/midiC0D0", some ⟨[⟨[0xC5], none⟩, ⟨[], none⟩], []⟩, none⟩ :
          ossDevice Script Pipe) ⟨0x9, 1, 60, 127, []⟩).msg ∧
    (alsaDevice.Receive Script.rawRead
        (⟨some ⟨[⟨[0xC5], none⟩, ⟨[], none⟩], []⟩, none, "hw:1,0", "UM-1", true, false, true,
          false⟩ : alsaDevice Script Pipe) ⟨0x9, 1, 60, 127, []⟩).dev.inputDevice =
      (ossDevice.Receive Script.read
        (⟨"/dev/snd/midiC0D0", some ⟨[⟨[0xC5], none⟩, ⟨[], none⟩], []⟩, none⟩ :
          ossDevice Script Pipe) ⟨0x9, 1, 60, 127, []⟩).dev.input :=
  (receive_backends_agree ⟨0x9, 1, 60, 127, []⟩ Script Pipe Script.read Script.rawRead
    (fun _ _ => rfl)
    ⟨"/dev/snd/midiC0D0", some ⟨[⟨[0xC5], none⟩, ⟨[], none⟩], []⟩, none⟩
    ⟨some ⟨[⟨[0xC5], none⟩, ⟨[], none⟩], []⟩, none, "hw:1,0", "UM-1", true, false, true,
      false⟩).1 ⟨[⟨[0xC5], none⟩, ⟨[], none⟩], []⟩ rfl rfl rfl

/-! ## Claims on the status byte of NoteOn and on framing -/

/-- Arithmetic of the status byte 0x90 | ((channel - 1) mod 256) over all
byte values of channel. -/
theorem noteOn_status_arith (channel : Nat) (hb : channel < 256) :
    0x90 ||| ((channel + 255) % 256) < 256 ∧
    (0x90 ||| ((channel + 255) % 256)) &&& 0x0F = ((channel + 255) % 256) % 16 ∧
    ((0x90 ||| ((channel + 255) % 256)) >>> 4 = 0x9 ↔
      (((channel + 255) % 256).testBit 5 = false ∧
        ((channel + 255) % 256).testBit 6 = false)) ∧
    (1 ≤ channel → channel ≤ 16 → 0x90 ||| ((channel + 255) % 256) = 0x90 + (channel - 1)) ∧
    (17 ≤ channel → channel ≤ 32 →
      0x90 ||| ((channel + 255) % 256) = 0x90 ||| ((channel - 16 + 255) % 256)) ∧
    (channel = 0 → 0x90 ||| ((channel + 255) % 256) = 0xFF) := by
  interval_cases channel <;> decide

/-- C20. Encode status-byte arithmetic over 8-bit bytes. For every channel
byte, NoteOn on an output-open device writes the frame whose status byte is
0x90 | ((channel - 1) mod 256), the channel not masked, on both backends and
for every transport. That byte has low nibble (channel - 1) mod 16, and high
nibble 0x9 exactly when bits 5 and 6 of (channel - 1) mod 256 are both clear.
Channel in 1..16 gives 0x90 + (channel - 1); channel in 17..32 gives the
status of channel - 16; channel 0 wraps to 0xFF, and Receive on the frame
NoteOn wrote for channel 0 fails with the System error after taking the
status byte. -/
theorem noteOn_status_byte_unmasked (channel note velocity : Nat) (hb : channel < 256) :
    (∀ (σ ω : Type) (Write : ω → List Nat → WriteOutcome × ω) (oss : ossDevice σ ω) (f : ω),
      oss.output = some f →
      ossDevice.NoteOn Write oss channel note velocity =
        { oss with
          output := some (Write f [0x90 ||| ((channel + 255) % 256), note, velocity]).2 }) ∧
    (∀ (σ ω : Type) (wr : Option ω → List Nat → WriteOutcome × Option ω)
      (alsa : alsaDevice σ ω),
      alsa.outputOpen = true →
      alsaDevice.NoteOn wr alsa channel note velocity =
        { alsa with
          outputDevice :=
            (wr alsa.outputDevice [0x90 ||| ((channel + 255) % 256), note, velocity]).2 }) ∧
    (0x90 ||| ((channel + 255) % 256) < 256 ∧
      (0x90 ||| ((channel + 255) % 256)) &&& 0x0F = ((channel + 255) % 256) % 16 ∧
      ((0x90 ||| ((channel + 255) % 256)) >>> 4 = 0x9 ↔
        (((channel + 255) % 256).testBit 5 = false ∧
          ((channel + 255) % 256).testBit 6 = false)) ∧
      (1 ≤ channel → channel ≤ 16 →
        0x90 ||| ((channel + 255) % 256) = 0x90 + (channel - 1)) ∧
      (17 ≤ channel → channel ≤ 32 →
        0x90 ||| ((channel + 255) % 256) = 0x90 ||| ((channel - 16 + 255) % 256)) ∧
      (channel = 0 → 0x90 ||| ((channel + 255) % 256) = 0xFF)) ∧
    (channel = 0 →
      (∀ (tx rx : ossDevice Pipe Pipe) (p p1 : Pipe) (log : List Nat) (msg : Message),
        tx.output = some p →
        (ossDevice.NoteOn Pipe.write tx channel note velocity).output = some p1 →
        rx.input = some ⟨p1.pending.drop p.pending.length, log⟩ →
        ossDevice.Receive Pipe.read rx msg =
          ⟨some "no SysEx yet sorry",
            { rx with input := some ⟨[note, velocity], log ++ [1]⟩ }, msg⟩) ∧
      (∀ (tx rx : alsaDevice Pipe Pipe) (p p1 : Pipe) (log : List Nat) (msg : Message),
        tx.outputOpen = true → tx.outputDevice = some p →
        (alsaDevice.NoteOn Pipe.rawWrite tx channel note velocity).outputDevice = some p1 →
        rx.inputOpen = true →
        rx.inputDevice = some ⟨p1.pending.drop p.pending.length, log⟩ →
        alsaDevice.Receive Pipe.rawRead rx msg =
          ⟨some "no SysEx yet sorry",
            { rx with inputDevice := some ⟨[note, velocity], log ++ [1]⟩ }, msg⟩)) := by
  refine ⟨?_, ?_, noteOn_status_arith channel hb, ?_⟩
  · intro σ ω Write oss f hout
    simp [ossDevice.NoteOn, hout]
  · intro σ ω wr alsa hopen
    simp [alsaDevice.NoteOn, hopen]
  · intro h0
    subst h0
    refine ⟨?_, ?_⟩
    · intro tx rx p p1 log msg hout hp1 hin
      rw [oss_noteOn_pipe tx p p1 0 note velocity hout hp1] at hin
      exact oss_receive_system Pipe.read rx msg _ _ 0xFF (by decide) (by decide) hin
        (pipe_read_one _ _ _)
    · intro tx rx p p1 log msg hopen hout hp1 hropen hin
      rw [alsa_noteOn_pipe tx p p1 0 note velocity hopen hout hp1] at hin
      exact alsa_receive_system Pipe.rawRead rx msg _ 0xFF (by decide) (by decide) hropen
        (by rw [hin]; simp [Pipe.rawRead, pipe_read_one])

/-- C20 at concrete channels on an empty pipe: channel 0 writes status 0xFF,
channel 17 writes status 0x90 as channel 1 does, channel 40 writes 0xB7. -/
theorem noteOn_status_byte_unmasked_witness :
    ossDevice.NoteOn Pipe.write
        (⟨"/dev/snd/midiC0D0", none, some ⟨[], []⟩⟩ : ossDevice Pipe Pipe) 0 60 127 =
      ⟨"/dev/snd/midiC0D0", none, some ⟨[0xFF, 60, 127], []⟩⟩ ∧
    ossDevice.NoteOn Pipe.write
        (⟨"/dev/snd/midiC0D0", none, some ⟨[], []⟩⟩ : ossDevice Pipe Pipe) 17 60 127 =
      ⟨"/dev/snd/midiC0D0", none, some ⟨[0x90, 60, 127], []⟩⟩ ∧
    alsaDevice.NoteOn Pipe.rawWrite
        (⟨none, some ⟨[], []⟩, "hw:1,0", "UM-1", false, true, false, true⟩ :
          alsaDevice Pipe Pipe) 40 60 127 =
      ⟨none, some ⟨[0xB7, 60, 127], []⟩, "hw:1,0", "UM-1", false, true, false, true⟩ :=
  ⟨(noteOn_status_byte_unmasked 0 60 127 (by decide)).1 Pipe Pipe Pipe.write
      ⟨"/dev/snd/midiC0D0", none, some ⟨[], []⟩⟩ ⟨[], []⟩ rfl,
    (noteOn_status_byte_unmasked 17 60 127 (by decide)).1 Pipe Pipe Pipe.write
      ⟨"/dev/snd/midiC0D0", none, some ⟨[], []⟩⟩ ⟨[], []⟩ rfl,
    (noteOn_status_byte_unmasked 40 60 127 (by decide)).2.1 Pipe Pipe Pipe.rawWrite
      ⟨none, some ⟨[], []⟩, "hw:1,0", "UM-1", false, true, false, true⟩ rfl⟩

/-- OSS: one Receive on a pipe that starts with a well-formed channel frame
takes exactly that frame. -/
theorem oss_receive_frame (oss : ossDevice Pipe Pipe) (msg : Message)
    (f rest log : List Nat) (hf : isChannelFrame f = true)
    (hin : oss.input = some ⟨f ++ rest, log⟩) :
    (ossDevice.Receive Pipe.read oss msg).err = none ∧
    (ossDevice.Receive Pipe.read oss msg).msg.Command = byteAt f 0 >>> 4 ∧
    (ossDevice.Receive Pipe.read oss msg).msg.Channel = byteAt f 0 &&& 0x0F ∧
    (ossDevice.Receive Pipe.read oss msg).msg.Data1 = byteAt f 1 ∧
    (ossDevice.Receive Pipe.read oss msg).dev =
      { oss with input := some ⟨rest, log ++ [1, f.length - 1]⟩ } := by
  rcases f with _ | ⟨s, _ | ⟨d1, _ | ⟨d2, _ | ⟨x, t⟩⟩⟩⟩
  · simp [isChannelFrame] at hf
  · simp [isChannelFrame] at hf
  · simp only [isChannelFrame, decide_eq_true_eq] at hf
    obtain ⟨hs, h1, hc⟩ := hf
    have hin2 : oss.input = some ⟨s :: d1 :: rest, log⟩ := hin
    rw [oss_receive_one_data Pipe.read oss msg _ _ _ s d1 hs h1 hc hin2 (pipe_read_one _ _ _)
      (pipe_read_one _ _ _)]
    simp [byteAt]
  · simp only [isChannelFrame, decide_eq_true_eq] at hf
    obtain ⟨hs, h1, h2, hc⟩ := hf
    have hin2 : oss.input = some ⟨s :: d1 :: d2 :: rest, log⟩ := hin
    rw [oss_receive_two_data Pipe.read oss msg _ _ _ s d1 d2 hs h1 h2 hc hin2
      (pipe_read_one _ _ _) (pipe_read_two _ _ _ _)]
    simp [byteAt]
  · simp [isChannelFrame] at hf

/-- OSS: the receive loop over a pipe holding well-formed channel frames. -/
theorem oss_receive_loop_frames (fs : List (List Nat))
    (hwf : ∀ f ∈ fs, isChannelFrame f = true) :
    ∀ (oss : ossDevice Pipe Pipe) (log : List Nat) (msg : Message),
      oss.input = some ⟨fs.flatten, log⟩ →
      (ossDevice.receiveLoop Pipe.read fs.length oss msg).length = fs.length ∧
      ∀ (i : Nat) (f : List Nat) (r : Received (ossDevice Pipe Pipe)),
        fs[i]? = some f →
        (ossDevice.receiveLoop Pipe.read fs.length oss msg)[i]? = some r →
        r.err = none ∧ r.msg.Command = byteAt f 0 >>> 4 ∧
        r.msg.Channel = byteAt f 0 &&& 0x0F ∧ r.msg.Data1 = byteAt f 1 ∧
        r.dev.input = some ⟨(fs.drop (i + 1)).flatten,
          log ++ (fs.take (i + 1)).flatMap (fun g => [1, g.length - 1])⟩ := by
  induction fs with
  | nil =>
    intro oss log msg _
    simp [ossDevice.receiveLoop]
  | cons f fs ih =>
    intro oss log msg hin
    have hf : isChannelFrame f = true := hwf f (List.mem_cons_self _ _)
    have hrest : ∀ g ∈ fs, isChannelFrame g = true :=
      fun g hg => hwf g (List.mem_cons_of_mem _ hg)
    have hin2 : oss.input = some ⟨f ++ fs.flatten, log⟩ := by
      rw [hin]
      simp
    obtain ⟨herr, hcmd, hch, hd1, hdev⟩ := oss_receive_frame oss msg f fs.flatten log hf hin2
    have hnext : (ossDevice.Receive Pipe.read oss msg).dev.input =
        some ⟨fs.flatten, log ++ [1, f.length - 1]⟩ := by
      rw [hdev]
    obtain ⟨hlen, hall⟩ := ih hrest (ossDevice.Receive Pipe.read oss msg).dev
      (log ++ [1, f.length - 1]) (ossDevice.Receive Pipe.read oss msg).msg hnext
    refine ⟨by simp [ossDevice.receiveLoop, hlen], ?_⟩
    intro i g r hg hr
    cases i with
    | zero =>
      simp only [List.length_cons, ossDevice.receiveLoop, List.getElem?_cons_zero,
        Option.some.injEq] at hg hr
      subst hg
      subst hr
      refine ⟨herr, hcmd, hch, hd1, ?_⟩
      rw [hnext]
      simp
    | succ j =>
      simp only [List.length_cons, ossDevice.receiveLoop, List.getElem?_cons_succ] at hg hr
      obtain ⟨h1, h2, h3, h4, h5⟩ := hall j g r hg hr
      refine ⟨h1, h2, h3, h4, ?_⟩
      rw [h5]
      simp [List.append_assoc]

/-- ALSA: one Receive on a pipe that starts with a well-formed channel frame
takes exactly that frame. -/
theorem alsa_receive_frame (alsa : alsaDevice Pipe Pipe) (msg : Message)
    (f rest log : List Nat) (hf : isChannelFrame f = true) (hopen : alsa.inputOpen = true)
    (hin : alsa.inputDevice = some ⟨f ++ rest, log⟩) :
    (alsaDevice.Receive Pipe.rawRead alsa msg).err = none ∧
    (alsaDevice.Receive Pipe.rawRead alsa msg).msg.Command = byteAt f 0 >>> 4 ∧
    (alsaDevice.Receive Pipe.rawRead alsa msg).msg.Channel = byteAt f 0 &&& 0x0F ∧
    (alsaDevice.Receive Pipe.rawRead alsa msg).msg.Data1 = byteAt f 1 ∧
    (alsaDevice.Receive Pipe.rawRead alsa msg).dev =
      { alsa with inputDevice := some ⟨rest, log ++ [1, f.length - 1]⟩ } := by
  rcases f with _ | ⟨s, _ | ⟨d1, _ | ⟨d2, _ | ⟨x, t⟩⟩⟩⟩
  · simp [isChannelFrame] at hf
  · simp [isChannelFrame] at hf
  · simp only [isChannelFrame, decide_eq_true_eq] at hf
    obtain ⟨hs, h1, hc⟩ := hf
    have hin2 : alsa.inputDevice = some ⟨s :: d1 :: rest, log⟩ := hin
    rw [alsa_receive_one_data Pipe.rawRead alsa msg (some ⟨d1 :: rest, log ++ [1]⟩)
      (some ⟨rest, log ++ [1] ++ [1]⟩) s d1 hs h1 hc hopen
      (by rw [hin2]; simp [Pipe.rawRead, pipe_read_one])
      (by simp [Pipe.rawRead, pipe_read_one])]
    simp [byteAt]
  · simp only [isChannelFrame, decide_eq_true_eq] at hf
    obtain ⟨hs, h1, h2, hc⟩ := hf
    have hin2 : alsa.inputDevice = some ⟨s :: d1 :: d2 :: rest, log⟩ := hin
    rw [alsa_receive_two_data Pipe.rawRead alsa msg (some ⟨d1 :: d2 :: rest, log ++ [1]⟩)
      (some ⟨rest, log ++ [1] ++ [2]⟩) s d1 d2 hs h1 h2 hc hopen
      (by rw [hin2]; simp [Pipe.rawRead, pipe_read_one])
      (by simp [Pipe.rawRead, pipe_read_two])]
    simp [byteAt]
  · simp [isChannelFrame] at hf

/-- ALSA: the receive loop over a pipe holding well-formed channel frames. -/
theorem alsa_receive_loop_frames (fs : List (List Nat))
    (hwf : ∀ f ∈ fs, isChannelFrame f = true) :
    ∀ (alsa : alsaDevice Pipe Pipe) (log : List Nat) (msg : Message),
      alsa.inputOpen = true → alsa.inputDevice = some ⟨fs.flatten, log⟩ →
      (alsaDevice.receiveLoop Pipe.rawRead fs.length alsa msg).length = fs.length ∧
      ∀ (i : Nat) (f : List Nat) (r : Received (alsaDevice Pipe Pipe)),
        fs[i]? = some f →
        (alsaDevice.receiveLoop Pipe.rawRead fs.length alsa msg)[i]? = some r →
        r.err = none ∧ r.msg.Command = byteAt f 0 >>> 4 ∧
        r.msg.Channel = byteAt f 0 &&& 0x0F ∧ r.msg.Data1 = byteAt f 1 ∧
        r.dev.inputDevice = some ⟨(fs.drop (i + 1)).flatten,
          log ++ (fs.take (i + 1)).flatMap (fun g => [1, g.length - 1])⟩ := by
  induction fs with
  | nil =>
    intro alsa log msg _ _
    simp [alsaDevice.receiveLoop]
  | cons f fs ih =>
    intro alsa log msg hopen hin
    have hf : isChannelFrame f = true := hwf f (List.mem_cons_self _ _)
    have hrest : ∀ g ∈ fs, isChannelFrame g = true :=
      fun g hg => hwf g (List.mem_cons_of_mem _ hg)
    have hin2 : alsa.inputDevice = some ⟨f ++ fs.flatten, log⟩ := by
      rw [hin]
      simp
    obtain ⟨herr, hcmd, hch, hd1, hdev⟩ :=
      alsa_receive_frame alsa msg f fs.flatten log hf hopen hin2
    have hnext : (alsaDevice.Receive Pipe.rawRead alsa msg).dev.inputDevice =
        some ⟨fs.flatten, log ++ [1, f.length - 1]⟩ := by
      rw [hdev]
    have hnopen : (alsaDevice.Receive Pipe.rawRead alsa msg).dev.inputOpen = true := by
      rw [hdev]
      exact hopen
    obtain ⟨hlen, hall⟩ := ih hrest (alsaDevice.Receive Pipe.rawRead alsa msg).dev
      (log ++ [1, f.length - 1]) (alsaDevice.Receive Pipe.rawRead alsa msg).msg hnopen hnext
    refine ⟨by simp [alsaDevice.receiveLoop, hlen], ?_⟩
    intro i g r hg hr
    cases i with
    | zero =>
      simp only [List.length_cons, alsaDevice.receiveLoop, List.getElem?_cons_zero,
        Option.some.injEq] at hg hr
      subst hg
      subst hr
      refine ⟨herr, hcmd, hch, hd1, ?_⟩
      rw [hnext]
      simp
    | succ j =>
      simp only [List.length_cons, alsaDevice.receiveLoop, List.getElem?_cons_succ] at hg hr
      obtain ⟨h1, h2, h3, h4, h5⟩ := hall j g r hg hr
      refine ⟨h1, h2, h3, h4, ?_⟩
      rw [h5]
      simp [List.append_assoc]

/-- C17. Framing: for every finite list of well-formed channel frames (a
status byte with command {0x8,0x9,0xA,0xB,0xE} and 2 data bytes, or with
command {0xC,0xD} and 1 data byte), calling Receive once per frame on a pipe
that holds the concatenation of the frames and delivers exactly the bytes
asked for: there is one result per frame; the i-th call succeeds with the
i-th frame's command, channel and data1; after it the pipe holds exactly the
frames that follow, so the call took the 3 respectively 2 bytes of its frame,
in one read of 1 byte and one read of 2 respectively 1 bytes; and after the
last frame the pipe is empty. Holds for the OSS and for the ALSA device. -/
theorem receive_loop_framing (fs : List (List Nat))
    (hwf : ∀ f ∈ fs, isChannelFrame f = true) (log : List Nat) (msg : Message) :
    (∀ (oss : ossDevice Pipe Pipe), oss.input = some ⟨fs.flatten, log⟩ →
      (ossDevice.receiveLoop Pipe.read fs.length oss msg).length = fs.length ∧
      (∀ (i : Nat) (f : List Nat) (r : Received (ossDevice Pipe Pipe)),
        fs[i]? = some f →
        (ossDevice.receiveLoop Pipe.read fs.length oss msg)[i]? = some r →
        r.err = none ∧ r.msg.Command = byteAt f 0 >>> 4 ∧
        r.msg.Channel = byteAt f 0 &&& 0x0F ∧ r.msg.Data1 = byteAt f 1 ∧
        r.dev.input = some ⟨(fs.drop (i + 1)).flatten,
          log ++ (fs.take (i + 1)).flatMap (fun g => [1, g.length - 1])⟩) ∧
      (∀ r, (ossDevice.receiveLoop Pipe.read fs.length oss msg).getLast? = some r →
        r.dev.input = some ⟨[], log ++ fs.flatMap (fun g => [1, g.length - 1])⟩)) ∧
    (∀ (alsa : alsaDevice Pipe Pipe), alsa.inputOpen = true →
      alsa.inputDevice = some ⟨fs.flatten, log⟩ →
      (alsaDevice.receiveLoop Pipe.rawRead fs.length alsa msg).length = fs.length ∧
      (∀ (i : Nat) (f : List Nat) (r : Received (alsaDevice Pipe Pipe)),
        fs[i]? = some f →
        (alsaDevice.receiveLoop Pipe.rawRead fs.length alsa msg)[i]? = some r →
        r.err = none ∧ r.msg.Command = byteAt f 0 >>> 4 ∧
        r.msg.Channel = byteAt f 0 &&& 0x0F ∧ r.msg.Data1 = byteAt f 1 ∧
        r.dev.inputDevice = some ⟨(fs.drop (i + 1)).flatten,
          log ++ (fs.take (i + 1)).flatMap (fun g => [1, g.length - 1])⟩) ∧
      (∀ r, (alsaDevice.receiveLoop Pipe.rawRead fs.length alsa msg).getLast? = some r →
        r.dev.inputDevice = some ⟨[], log ++ fs.flatMap (fun g => [1, g.length - 1])⟩)) := by
  refine ⟨?_, ?_⟩
  · intro oss hin
    obtain ⟨hlen, hall⟩ := oss_receive_loop_frames fs hwf oss log msg hin
    refine ⟨hlen, hall, fun r hr => ?_⟩
    rw [List.getLast?_eq_getElem?, hlen] at hr
    have hpos : fs.length - 1 < fs.length := by
      rcases Nat.eq_zero_or_pos fs.length with h0 | h0
      · rw [h0] at hr hlen
        rw [List.length_eq_zero.mp hlen] at hr
        simp at hr
      · omega
    have hf : fs[fs.length - 1]? = some (fs.get ⟨fs.length - 1, hpos⟩) :=
      List.getElem?_eq_getElem hpos
    have h := (hall (fs.length - 1) _ r hf hr).2.2.2.2
    rw [h, Nat.sub_add_cancel (by omega : 1 ≤ fs.length)]
    simp
  · intro alsa hopen hin
    obtain ⟨hlen, hall⟩ := alsa_receive_loop_frames fs hwf alsa log msg hopen hin
    refine ⟨hlen, hall, fun r hr => ?_⟩
    rw [List.getLast?_eq_getElem?, hlen] at hr
    have hpos : fs.length - 1 < fs.length := by
      rcases Nat.eq_zero_or_pos fs.length with h0 | h0
      · rw [h0] at hr hlen
        rw [List.length_eq_zero.mp hlen] at hr
        simp at hr
      · omega
    have hf : fs[fs.length - 1]? = some (fs.get ⟨fs.length - 1, hpos⟩) :=
      List.getElem?_eq_getElem hpos
    have h := (hall (fs.length - 1) _ r hf hr).2.2.2.2
    rw [h, Nat.sub_add_cancel (by omega : 1 ≤ fs.length)]
    simp

/-- C17 at the three frames [0x91, 0x3C, 0x7F], [0xC2, 0x05] and
[0xE0, 0x00, 0x40] waiting in a pipe: three calls give three results, and
after the last one the pipe is empty and has seen reads of 1, 2, 1, 1, 1 and
2 bytes. -/
theorem receive_loop_framing_witness :
    (ossDevice.receiveLoop Pipe.read 3
        (⟨"/dev/snd/midiC0D0", some ⟨[0x91, 0x3C, 0x7F, 0xC2, 0x05, 0xE0, 0x00, 0x40], []⟩,
          none⟩ : ossDevice Pipe Pipe) ⟨0, 0, 0, 0, []⟩).length = 3 ∧
    (ossDevice.receiveLoop Pipe.read 3
        (⟨"/dev/snd/midiC0D0", some ⟨[0x91, 0x3C, 0x7F, 0xC2, 0x05, 0xE0, 0x00, 0x40], []⟩,
          none⟩ : ossDevice Pipe Pipe) ⟨0, 0, 0, 0, []⟩).getLast?.map
        (fun r => r.dev.input) = some (some ⟨[], [1, 2, 1, 1, 1, 2]⟩) :=
  ⟨((receive_loop_framing [[0x91, 0x3C, 0x7F], [0xC2, 0x05], [0xE0, 0x00, 0x40]]
      (by decide) [] ⟨0, 0, 0, 0, []⟩).1
      ⟨"/dev/snd/midiC0D0", some ⟨[0x91, 0x3C, 0x7F, 0xC2, 0x05, 0xE0, 0x00, 0x40], []⟩,
        none⟩ rfl).1,
    congrArg some (((receive_loop_framing [[0x91, 0x3C, 0x7F], [0xC2, 0x05], [0xE0, 0x00, 0x40]]
      (by decide) [] ⟨0, 0, 0, 0, []⟩).1
      ⟨"/dev/snd/midiC0D0", some ⟨[0x91, 0x3C, 0x7F, 0xC2, 0x05, 0xE0, 0x00, 0x40], []⟩,
        none⟩ rfl).2.2
      ⟨none, ⟨"/dev/snd/midiC0D0", some ⟨[], [1, 2, 1, 1, 1, 2]⟩, none⟩,
        ⟨0xE, 0, 0x00, 0x40, []⟩⟩ rfl)⟩

end Midi
